import Mathlib

/-!
Verification development for the Phystech social-account module
(src/phystech.py).

The module is a single Python class `Phystech`: each instance holds a
profile plus relationship state (friend / blocked / incoming-request /
outgoing-request id sets), and the class holds a registry of all
instances (`__all_users`), a uid counter (`__uid`) and a per-uid action
history (`__user_history`).

Shallow embedding choices:
  - an account is a record `Phystech`; the class-level registry, counter
    and history form the record `SNState`;
  - timestamps (`strftime(gmtime())`) are external inputs: every
    operation takes the current time `t : Nat`; `datetime.now().year`
    is likewise a parameter;
  - Python mutation is modelled by threading `SNState`; a Python
    exception is the `Except.error` branch of the returned result, and
    the state returned alongside it is the state at the moment the
    exception was raised (mutations performed earlier stick, as in
    Python);
  - `set.remove` raises `KeyError` when the element is absent; the
    embedding checks membership and returns `PyExc.keyError` with the
    partial state in that case;
  - `assert self != user` compares object identity in Python; since
    uids are assigned by a monotone counter and resolution returns the
    registered object with the given uid, identity of `self` and the
    resolved `user` coincides with equality of uids, which is how the
    check is embedded;
  - string messages mirror the source's prints, with apostrophes and
    non-ASCII text elided (no claim depends on the exact text).
-/

/-- One account: the per-instance fields of class `Phystech`
(src/phystech.py lines 11-37). Credentials are carried but never
inspected, as in the source. -/
structure Phystech where
  uid : Nat
  name : String
  status : Option String
  lastOnline : Nat
  birthday : Option String
  friends : Finset Nat
  blockUsers : Finset Nat
  incoming : Finset Nat
  outcoming : Finset Nat
  graduationYear : Option Int
  login : String
  password : String
  deriving DecidableEq

/-- Default account used only to make directory reads total; every
reachable read goes through an account that is actually registered. -/
instance : Inhabited Phystech :=
  ⟨{ uid := 0, name := "", status := none, lastOnline := 0, birthday := none,
     friends := ∅, blockUsers := ∅, incoming := ∅, outcoming := ∅,
     graduationYear := none, login := "", password := "" }⟩

/-- The class-level state of `Phystech`: the uid counter `__uid`, the
registry `__all_users` (a list here; the source uses a set, and lookup
is a linear scan either way) and the history map `__user_history`. -/
structure SNState where
  nextUid : Nat
  users : List Phystech
  history : Nat → List (Nat × String)

deriving instance DecidableEq for Except

/-- Python exceptions the module can raise. -/
inductive PyExc where
  | keyError (uid : Nat)
  | assertionError (msg : String)
  deriving DecidableEq, Repr

/-- Which branch of an operation ran; stands in for the source's
printed informational messages. -/
inductive Branch where
  | blockedByPeer
  | alreadyFriends
  | alreadyRequested
  | requestSent
  | notInRequests
  | accepted
  | rejected
  | alreadyBlocked
  | blockedOk
  | notBlocked
  | unblockedOk
  | notFriend
  | removedOk
  deriving DecidableEq, Repr

/-- Lookup by uid over the registry, as the linear scan in
`_get_phystech_object` (lines 63-73) does before raising. -/
def findUser (s : SNState) (uid : Nat) : Option Phystech :=
  s.users.find? (fun u => u.uid == uid)

/-- Total read of an account; default only on unregistered uids. -/
def getUserD (s : SNState) (uid : Nat) : Phystech :=
  (findUser s uid).getD default

/-- Apply an in-place mutation to the account(s) carrying `uid`,
modelling Python field assignment on the live object. -/
def updateUser (uid : Nat) (f : Phystech → Phystech) (s : SNState) : SNState :=
  { s with users := s.users.map (fun u => if u.uid = uid then f u else u) }

/-- Embedding of `_update_online_status` (lines 54-61): set
`last_online` to the current time and append one `(time, action)`
record to the acting account's history. -/
def updateOnlineStatus (t : Nat) (uid : Nat) (action : String) (s : SNState) : SNState :=
  let s1 := updateUser uid (fun u => { u with lastOnline := t }) s
  { s1 with history := fun i => if i = uid then s1.history i ++ [(t, action)] else s1.history i }

/-- Embedding of `_get_phystech_object` (lines 63-73): linear scan,
`KeyError` when no registered account has the uid. -/
def getPhystechObject (s : SNState) (uid : Nat) : Except PyExc Phystech :=
  match findUser s uid with
  | some u => .ok u
  | none => .error (.keyError uid)

/-- The `user: Optional[Phystech] = None` calling convention: either an
already-resolved account (passed by uid; its uid is immutable) or a raw
uid to resolve now. `None` is falsy, instances are truthy. -/
def resolveArg (s : SNState) (targetUid : Nat) (userArg : Option Nat) : Except PyExc Nat :=
  match userArg with
  | some u => .ok u
  | none =>
    match findUser s targetUid with
    | some u => .ok u.uid
    | none => .error (.keyError targetUid)

/-- Embedding of `_initialize_friends` (lines 45-49): `if not friends`
is true for both `None` and the empty set. -/
def initializeFriends (friends : Option (Finset Nat)) : Finset Nat :=
  match friends with
  | none => ∅
  | some f => if f = ∅ then ∅ else f

/-- Embedding of `Phystech.__init__` (lines 11-37): allocate the next
uid, build the account with empty blocked/request sets, register it and
overwrite its history slot with the single creation record. Returns the
new state and the new uid. -/
def mkPhystech (t : Nat) (name login password : String) (graduationYear : Option Int)
    (birthday : Option String) (status : Option String) (friends : Option (Finset Nat))
    (s : SNState) : SNState × Nat :=
  let uid := s.nextUid
  let u : Phystech :=
    { uid := uid, name := name, status := status, lastOnline := t, birthday := birthday,
      friends := initializeFriends friends, blockUsers := ∅, incoming := ∅, outcoming := ∅,
      graduationYear := graduationYear, login := login, password := password }
  ({ nextUid := uid + 1,
     users := u :: s.users,
     history := fun i => if i = uid then [(t, "Create an account")] else s.history i }, uid)

/-- Embedding of `is_graduate` (lines 39-43), with the current year as
a parameter in place of `datetime.now()`. -/
def is_graduate (year : Int) (u : Phystech) : Option Bool :=
  match u.graduationYear with
  | some g => some (decide (year - g > 0))
  | none => none

/-- Embedding of `get_block_users_list` (lines 82-89). -/
def get_block_users_list (t uid : Nat) (flag : Bool) (s0 : SNState) : SNState × Finset Nat :=
  let s := if flag then updateOnlineStatus t uid ("Get blocked users") s0 else s0
  (s, (getUserD s uid).blockUsers)

/-- Embedding of `get_friends_list` (lines 91-98). -/
def get_friends_list (t uid : Nat) (flag : Bool) (s0 : SNState) : SNState × Finset Nat :=
  let s := if flag then updateOnlineStatus t uid ("Get friends") s0 else s0
  (s, (getUserD s uid).friends)

/-- Embedding of `get_incoming_friend_requests_list` (lines 100-103). -/
def get_incoming_friend_requests_list (t uid : Nat) (flag : Bool) (s0 : SNState) :
    SNState × Finset Nat :=
  let s := if flag then updateOnlineStatus t uid ("Get incoming requests") s0 else s0
  (s, (getUserD s uid).incoming)

/-- Embedding of `get_outcoming_friend_requests_list` (lines 105-108). -/
def get_outcoming_friend_requests_list (t uid : Nat) (flag : Bool) (s0 : SNState) :
    SNState × Finset Nat :=
  let s := if flag then updateOnlineStatus t uid ("Get outcoming friends") s0 else s0
  (s, (getUserD s uid).outcoming)

/-- Embedding of `get_mutual_friends` (lines 110-116): history record,
resolve the peer, intersect the two friend sets. -/
def get_mutual_friends (t selfUid targetUid : Nat) (userArg : Option Nat) (s0 : SNState) :
    SNState × Except PyExc (Finset Nat) :=
  let s := updateOnlineStatus t selfUid ("Get mutual friends") s0
  match resolveArg s targetUid userArg with
  | .error e => (s, .error e)
  | .ok tu => (s, .ok ((getUserD s selfUid).friends ∩ (getUserD s tu).friends))

/-- Embedding of `__str__` (lines 251-265); the Russian template text
is transliterated, the structure (four lines plus a conditional
graduate line) is kept. -/
def strRepr (year : Int) (u : Phystech) : String :=
  let lines :=
    [("User ") ++ u.name ++ (".")
    , ("Birthday: ") ++ (match u.birthday with | some b => b | none => ("(hidden)"))
    , ("Status: ") ++ (match u.status with | some st => st | none => ("None")) ++ (".")
    , ("Last online ") ++ toString u.lastOnline]
  let lines :=
    match is_graduate year u with
    | some true =>
      lines ++ [("Graduated in ") ++
        (match u.graduationYear with | some g => toString g | none => (""))]
    | _ => lines
  String.intercalate ("\n") lines

/-- Embedding of `describe_human` (lines 118-123): history record with
the target uid in the label, resolve the peer, render its profile. -/
def describe_human (t selfUid targetUid : Nat) (year : Int) (s0 : SNState) :
    SNState × Except PyExc String :=
  let s := updateOnlineStatus t selfUid (("Describe ") ++ toString targetUid) s0
  match findUser s targetUid with
  | none => (s, .error (.keyError targetUid))
  | some u => (s, .ok (strRepr year u))

/-- Embedding of `accept_friend_request` (lines 125-147). Note the
ordering taken from the source: the history record first, then the
no-pending-request check; on accept the two friend-set insertions come
before the two request-set removals; `user._outcoming.remove` is the
one removal not guarded by the earlier membership check, so it can
raise `KeyError` with the insertions already applied. There is no
self-target assertion in this method. -/
def accept_friend_request (t selfUid targetUid : Nat) (decision : Bool)
    (userArg : Option Nat) (s0 : SNState) : SNState × Except PyExc Branch :=
  let s := updateOnlineStatus t selfUid ("Accept friend") s0
  match resolveArg s targetUid userArg with
  | .error e => (s, .error e)
  | .ok tu =>
    if tu ∉ (getUserD s selfUid).incoming then (s, .ok .notInRequests)
    else
      let s1 :=
        if decision then
          updateUser tu (fun u => { u with friends := insert selfUid u.friends })
            (updateUser selfUid (fun u => { u with friends := insert tu u.friends }) s)
        else s
      let s2 := updateUser selfUid (fun u => { u with incoming := u.incoming.erase tu }) s1
      if selfUid ∈ (getUserD s2 tu).outcoming then
        (updateUser tu (fun u => { u with outcoming := u.outcoming.erase selfUid }) s2,
         .ok (if decision then .accepted else .rejected))
      else (s2, .error (.keyError selfUid))

/-- Embedding of `remove_friend` (lines 198-219): history record,
resolve, self-target assertion, then either the not-a-friend
informational branch or removal from both friend sets; the removal from
the peer's set is unguarded and can raise `KeyError` after the removal
from the acting account's set has happened. -/
def remove_friend (t selfUid targetUid : Nat) (userArg : Option Nat) (flag : Bool)
    (s0 : SNState) : SNState × Except PyExc Branch :=
  let s := updateOnlineStatus t selfUid ("Remove friend") s0
  match resolveArg s targetUid userArg with
  | .error e => (s, .error e)
  | .ok tu =>
    if selfUid = tu then (s, .error (.assertionError ("You cant remove yourself from friends!")))
    else if tu ∉ (getUserD s selfUid).friends then (s, .ok .notFriend)
    else
      let s1 := updateUser selfUid (fun u => { u with friends := u.friends.erase tu }) s
      if selfUid ∈ (getUserD s1 tu).friends then
        (updateUser tu (fun u => { u with friends := u.friends.erase selfUid }) s1,
         .ok .removedOk)
      else (s1, .error (.keyError selfUid))

/-- Embedding of `unblock_user` (lines 173-196): when `flag` is false
(the internal call from `add_friend`) no history record is made and
nothing is printed, but the state transition is the same. -/
def unblock_user (t selfUid targetUid : Nat) (userArg : Option Nat) (flag : Bool)
    (s0 : SNState) : SNState × Except PyExc Branch :=
  let s := if flag then updateOnlineStatus t selfUid ("Unblock user") s0 else s0
  match resolveArg s targetUid userArg with
  | .error e => (s, .error e)
  | .ok tu =>
    if selfUid = tu then (s, .error (.assertionError ("You cant block yourself!")))
    else if tu ∉ (getUserD s selfUid).blockUsers then (s, .ok .notBlocked)
    else (updateUser selfUid (fun u => { u with blockUsers := u.blockUsers.erase tu }) s,
          .ok .unblockedOk)

/-- Embedding of `block_user` (lines 149-171): history record, resolve,
self-target assertion, already-blocked informational branch; otherwise
add to the block list and delegate to `remove_friend` and
`accept_friend_request(decision = False)`, each of which appends its
own history record. An exception in a delegate propagates. -/
def block_user (t selfUid targetUid : Nat) (userArg : Option Nat) (s0 : SNState) :
    SNState × Except PyExc Branch :=
  let s := updateOnlineStatus t selfUid ("Block user") s0
  match resolveArg s targetUid userArg with
  | .error e => (s, .error e)
  | .ok tu =>
    if selfUid = tu then (s, .error (.assertionError ("You cant block yourself!")))
    else if tu ∈ (getUserD s selfUid).blockUsers then (s, .ok .alreadyBlocked)
    else
      let s1 := updateUser selfUid (fun u => { u with blockUsers := insert tu u.blockUsers }) s
      match remove_friend t selfUid targetUid (some tu) false s1 with
      | (s2, .error e) => (s2, .error e)
      | (s2, .ok _) =>
        match accept_friend_request t selfUid tu false (some tu) s2 with
        | (s3, .error e) => (s3, .error e)
        | (s3, .ok _) => (s3, .ok .blockedOk)

/-- Embedding of `add_friend` (lines 221-249): history record, resolve,
self-target assertion, then the three informational branches
(blocked-by-peer, already-friends, request-already-sent) in source
order; otherwise silently unblock the peer, then add the peer to the
acting account's outgoing set and the acting account to the peer's
incoming set. -/
def add_friend (t selfUid targetUid : Nat) (userArg : Option Nat) (s0 : SNState) :
    SNState × Except PyExc Branch :=
  let s := updateOnlineStatus t selfUid ("Add friend") s0
  match resolveArg s targetUid userArg with
  | .error e => (s, .error e)
  | .ok tu =>
    if selfUid = tu then (s, .error (.assertionError ("You cant add yourself to friends!")))
    else if selfUid ∈ (getUserD s tu).blockUsers then (s, .ok .blockedByPeer)
    else if tu ∈ (getUserD s selfUid).friends then (s, .ok .alreadyFriends)
    else if selfUid ∈ (getUserD s tu).incoming then (s, .ok .alreadyRequested)
    else
      match unblock_user t selfUid tu (some tu) false s with
      | (s1, .error e) => (s1, .error e)
      | (s1, .ok _) =>
        let s2 := updateUser selfUid (fun u => { u with outcoming := insert tu u.outcoming }) s1
        let s3 := updateUser tu (fun u => { u with incoming := insert selfUid u.incoming }) s2
        (s3, .ok .requestSent)

/-- The §4.2 relationship operations as invoked publicly (peer passed
by id, default flags). -/
inductive Op where
  | sendFriendRequest (selfUid targetUid : Nat)
  | respondToFriendRequest (selfUid targetUid : Nat) (decision : Bool)
  | removeFriend (selfUid targetUid : Nat)
  | blockUser (selfUid targetUid : Nat)
  | unblockUser (selfUid targetUid : Nat)
  | mutualFriends (selfUid targetUid : Nat)
  deriving DecidableEq, Repr

/-- State effect of one public §4.2 operation. -/
def applyOp (t : Nat) (o : Op) (s : SNState) : SNState :=
  match o with
  | .sendFriendRequest a b => (add_friend t a b none s).1
  | .respondToFriendRequest a b d => (accept_friend_request t a b d none s).1
  | .removeFriend a b => (remove_friend t a b none true s).1
  | .blockUser a b => (block_user t a b none s).1
  | .unblockUser a b => (unblock_user t a b none true s).1
  | .mutualFriends a b => (get_mutual_friends t a b none s).1

/-- Friendship symmetry (spec §3): for any two registered accounts,
each is in the other's friend set or neither is. -/
def FriendsSymm (s : SNState) : Prop :=
  ∀ a ∈ s.users, ∀ b ∈ s.users, (a.uid ∈ b.friends ↔ b.uid ∈ a.friends)

instance (s : SNState) : Decidable (FriendsSymm s) := by
  unfold FriendsSymm; infer_instance

/-- Empty directory: no accounts, uid counter at zero, empty history. -/
def emptySN : SNState := { nextUid := 0, users := [], history := fun _ => [] }

/-- Example directory with two fresh accounts: uid 0 (Alice) and uid 1 (Bob). -/
def stateAB : SNState :=
  (mkPhystech 1 ("Bob") ("bob") ("pw") none none none none
    (mkPhystech 0 ("Alice") ("alice") ("pw") none none none none emptySN).1).1

/-- Directory where Alice (uid 0) has a pending friend request to Bob (uid 1). -/
def stateReqAB : SNState := (add_friend 2 0 1 none stateAB).1

/-- Directory where Bob (uid 1) has a pending friend request to Alice (uid 0). -/
def stateReqBA : SNState := (add_friend 2 1 0 none stateAB).1

/-- Directory with two mutual friends: uid 0 and uid 1 are friends. -/
def stateFriends : SNState :=
  (accept_friend_request 3 1 0 true none stateReqAB).1

/-! Infrastructure lemmas about lookup, update and history. -/

theorem findUser_eq_some_uid {s : SNState} {v : Nat} {u : Phystech}
    (h : findUser s v = some u) : u.uid = v := by
  have := List.find?_some h
  simpa using this

theorem findUser_mem {s : SNState} {v : Nat} {u : Phystech}
    (h : findUser s v = some u) : u ∈ s.users :=
  List.mem_of_find?_eq_some h

theorem find?_map_pres (l : List Phystech) (g : Phystech → Phystech)
    (hg : ∀ u, (g u).uid = u.uid) (v : Nat) :
    (l.map g).find? (fun u => u.uid == v) =
      (l.find? (fun u => u.uid == v)).map g := by
  induction l with
  | nil => rfl
  | cons a l ih =>
    by_cases h : a.uid = v
    · simp [List.find?_cons, hg, h]
    · simp [List.find?_cons, hg, h, ih]

theorem findUser_updateUser (f : Phystech → Phystech) (huid : ∀ u, (f u).uid = u.uid)
    (uid v : Nat) (s : SNState) :
    findUser (updateUser uid f s) v =
      (findUser s v).map (fun u => if u.uid = uid then f u else u) := by
  unfold findUser updateUser
  exact find?_map_pres _ _ (fun u => by by_cases h : u.uid = uid <;> simp [h, huid]) v

theorem findUser_updateUser_ne (f : Phystech → Phystech) (huid : ∀ u, (f u).uid = u.uid)
    {uid v : Nat} (hne : v ≠ uid) (s : SNState) :
    findUser (updateUser uid f s) v = findUser s v := by
  rw [findUser_updateUser f huid]
  cases hf : findUser s v with
  | none => rfl
  | some u =>
    have : u.uid = v := findUser_eq_some_uid hf
    simp [this, hne]

theorem findUser_updateUser_self (f : Phystech → Phystech) (huid : ∀ u, (f u).uid = u.uid)
    (uid : Nat) (s : SNState) :
    findUser (updateUser uid f s) uid = (findUser s uid).map f := by
  rw [findUser_updateUser f huid]
  cases hf : findUser s uid with
  | none => rfl
  | some u =>
    have : u.uid = uid := findUser_eq_some_uid hf
    simp [this]

theorem getUserD_updateUser_ne (f : Phystech → Phystech) (huid : ∀ u, (f u).uid = u.uid)
    {uid v : Nat} (hne : v ≠ uid) (s : SNState) :
    getUserD (updateUser uid f s) v = getUserD s v := by
  unfold getUserD
  rw [findUser_updateUser_ne f huid hne]

theorem getUserD_updateUser_self (f : Phystech → Phystech) (huid : ∀ u, (f u).uid = u.uid)
    {uid : Nat} {s : SNState} {u : Phystech} (h : findUser s uid = some u) :
    getUserD (updateUser uid f s) uid = f u := by
  unfold getUserD
  rw [findUser_updateUser_self f huid, h]
  rfl

theorem isSome_findUser_updateUser (f : Phystech → Phystech) (huid : ∀ u, (f u).uid = u.uid)
    (uid v : Nat) (s : SNState) :
    (findUser (updateUser uid f s) v).isSome = (findUser s v).isSome := by
  rw [findUser_updateUser f huid]
  cases findUser s v <;> rfl

theorem findUser_updateOnlineStatus (t uid : Nat) (act : String) (s : SNState) (v : Nat) :
    findUser (updateOnlineStatus t uid act s) v =
      findUser (updateUser uid (fun u => { u with lastOnline := t }) s) v := rfl

theorem getUserD_updateOnlineStatus (t uid : Nat) (act : String) (s : SNState) (v : Nat) :
    getUserD (updateOnlineStatus t uid act s) v =
      getUserD (updateUser uid (fun u => { u with lastOnline := t }) s) v := rfl

theorem proj_getUserD_updateUser {α : Type} (φ : Phystech → α) (f : Phystech → Phystech)
    (huid : ∀ u, (f u).uid = u.uid) (hφ : ∀ u, φ (f u) = φ u)
    (uid v : Nat) (s : SNState) :
    φ (getUserD (updateUser uid f s) v) = φ (getUserD s v) := by
  unfold getUserD
  rw [findUser_updateUser f huid]
  cases hf : findUser s v with
  | none => rfl
  | some u => by_cases h : u.uid = uid <;> simp [h, hφ]

theorem history_updateUser (uid : Nat) (f : Phystech → Phystech) (s : SNState) :
    (updateUser uid f s).history = s.history := rfl

theorem history_updateOnlineStatus_self (t uid : Nat) (act : String) (s : SNState) :
    (updateOnlineStatus t uid act s).history uid = s.history uid ++ [(t, act)] := by
  simp [updateOnlineStatus, updateUser]

theorem history_updateOnlineStatus_ne (t : Nat) {uid v : Nat} (act : String) (s : SNState)
    (h : v ≠ uid) :
    (updateOnlineStatus t uid act s).history v = s.history v := by
  simp [updateOnlineStatus, updateUser, h]

theorem uid_getUserD {s : SNState} {v : Nat} (h : (findUser s v).isSome) :
    (getUserD s v).uid = v := by
  unfold getUserD
  cases hf : findUser s v with
  | none => rw [hf] at h; cases h
  | some u => simpa using findUser_eq_some_uid hf

theorem resolveArg_none_some {s : SNState} {v : Nat} {u : Phystech}
    (h : findUser s v = some u) : resolveArg s v none = .ok u.uid := by
  simp [resolveArg, h]

theorem friends_after_status (t uid : Nat) (act : String) (s : SNState) (v : Nat) :
    (getUserD (updateOnlineStatus t uid act s) v).friends = (getUserD s v).friends := by
  rw [getUserD_updateOnlineStatus]
  exact proj_getUserD_updateUser Phystech.friends (fun u => { u with lastOnline := t })
    (fun _ => rfl) (fun _ => rfl) uid v s

theorem blockUsers_after_status (t uid : Nat) (act : String) (s : SNState) (v : Nat) :
    (getUserD (updateOnlineStatus t uid act s) v).blockUsers = (getUserD s v).blockUsers := by
  rw [getUserD_updateOnlineStatus]
  exact proj_getUserD_updateUser Phystech.blockUsers (fun u => { u with lastOnline := t })
    (fun _ => rfl) (fun _ => rfl) uid v s

theorem incoming_after_status (t uid : Nat) (act : String) (s : SNState) (v : Nat) :
    (getUserD (updateOnlineStatus t uid act s) v).incoming = (getUserD s v).incoming := by
  rw [getUserD_updateOnlineStatus]
  exact proj_getUserD_updateUser Phystech.incoming (fun u => { u with lastOnline := t })
    (fun _ => rfl) (fun _ => rfl) uid v s

theorem outcoming_after_status (t uid : Nat) (act : String) (s : SNState) (v : Nat) :
    (getUserD (updateOnlineStatus t uid act s) v).outcoming = (getUserD s v).outcoming := by
  rw [getUserD_updateOnlineStatus]
  exact proj_getUserD_updateUser Phystech.outcoming (fun u => { u with lastOnline := t })
    (fun _ => rfl) (fun _ => rfl) uid v s

theorem findUser_after_status_map (t uid : Nat) (act : String) (s : SNState) (v : Nat) :
    findUser (updateOnlineStatus t uid act s) v =
      (findUser s v).map (fun u => if u.uid = uid then { u with lastOnline := t } else u) := by
  rw [findUser_updateOnlineStatus]
  exact findUser_updateUser (fun u => { u with lastOnline := t }) (fun _ => rfl) uid v s

theorem isSome_findUser_after_status (t uid : Nat) (act : String) (s : SNState) (v : Nat) :
    (findUser (updateOnlineStatus t uid act s) v).isSome = (findUser s v).isSome := by
  rw [findUser_updateOnlineStatus]
  exact isSome_findUser_updateUser (fun u => { u with lastOnline := t }) (fun _ => rfl) uid v s

/-! Effect lemmas: explicit descriptions of each operation's branches. -/

theorem unblock_internal_effect (t sa tb : Nat) (s : SNState) (hne : sa ≠ tb) :
    ((unblock_user t sa tb (some tb) false s).2 = .ok .notBlocked ∨
     (unblock_user t sa tb (some tb) false s).2 = .ok .unblockedOk) ∧
    (∀ v, (getUserD ((unblock_user t sa tb (some tb) false s).1) v).friends =
      (getUserD s v).friends) ∧
    (∀ v, (getUserD ((unblock_user t sa tb (some tb) false s).1) v).incoming =
      (getUserD s v).incoming) ∧
    (∀ v, (getUserD ((unblock_user t sa tb (some tb) false s).1) v).outcoming =
      (getUserD s v).outcoming) ∧
    (∀ v, v ≠ sa → (getUserD ((unblock_user t sa tb (some tb) false s).1) v).blockUsers =
      (getUserD s v).blockUsers) ∧
    ((getUserD ((unblock_user t sa tb (some tb) false s).1) sa).blockUsers =
      ((getUserD s sa).blockUsers).erase tb) ∧
    ((unblock_user t sa tb (some tb) false s).1.history = s.history) ∧
    (∀ v, (findUser ((unblock_user t sa tb (some tb) false s).1) v).isSome =
      (findUser s v).isSome) := by
  rw [unblock_user]
  simp only [resolveArg, Bool.false_eq_true, if_false]
  rw [if_neg hne]
  by_cases h : tb ∈ (getUserD s sa).blockUsers
  · rw [if_neg (by simpa using h)]
    have hA : ∃ A, findUser s sa = some A := by
      cases hf : findUser s sa with
      | none =>
        rw [getUserD, hf] at h
        simp [default] at h
      | some A => exact ⟨A, rfl⟩
    obtain ⟨A, hA⟩ := hA
    dsimp only
    refine ⟨Or.inr rfl, ?_, ?_, ?_, ?_, ?_, rfl, ?_⟩
    · exact fun v => proj_getUserD_updateUser Phystech.friends
        (fun u => { u with blockUsers := u.blockUsers.erase tb })
        (fun _ => rfl) (fun _ => rfl) sa v s
    · exact fun v => proj_getUserD_updateUser Phystech.incoming
        (fun u => { u with blockUsers := u.blockUsers.erase tb })
        (fun _ => rfl) (fun _ => rfl) sa v s
    · exact fun v => proj_getUserD_updateUser Phystech.outcoming
        (fun u => { u with blockUsers := u.blockUsers.erase tb })
        (fun _ => rfl) (fun _ => rfl) sa v s
    · exact fun v hv => by
        rw [getUserD_updateUser_ne (fun u => { u with blockUsers := u.blockUsers.erase tb })
          (fun _ => rfl) hv]
    · rw [getUserD_updateUser_self (fun u => { u with blockUsers := u.blockUsers.erase tb })
        (fun _ => rfl) hA]
      rw [getUserD, hA]
      rfl
    · exact fun v => isSome_findUser_updateUser
        (fun u => { u with blockUsers := u.blockUsers.erase tb }) (fun _ => rfl) sa v s
  · rw [if_pos (by simpa using h)]
    refine ⟨Or.inl rfl, fun _ => rfl, fun _ => rfl, fun _ => rfl, fun _ _ => rfl, ?_, rfl,
      fun _ => rfl⟩
    rw [Finset.erase_eq_of_not_mem h]

theorem add_friend_success_path (t sa tb : Nat) (s : SNState) (B : Phystech)
    (hB : findUser s tb = some B) (hne : sa ≠ tb)
    (h1 : sa ∉ (getUserD s tb).blockUsers)
    (h2 : tb ∉ (getUserD s sa).friends)
    (h3 : sa ∉ (getUserD s tb).incoming) :
    add_friend t sa tb none s =
      (updateUser tb (fun u => { u with incoming := insert sa u.incoming })
        (updateUser sa (fun u => { u with outcoming := insert tb u.outcoming })
          ((unblock_user t sa tb (some tb) false
            (updateOnlineStatus t sa ("Add friend") s)).1)),
       .ok .requestSent) := by
  have hBuid : B.uid = tb := findUser_eq_some_uid hB
  set s1 := updateOnlineStatus t sa ("Add friend") s with hs1
  have hB' : findUser s1 tb = some B := by
    rw [hs1, findUser_after_status_map, hB]
    simp [hBuid, Ne.symm hne]
  have hres : resolveArg s1 tb none = .ok tb := by
    simp [resolveArg, hB', hBuid]
  have c1 : sa ∉ (getUserD s1 tb).blockUsers := by
    rw [hs1, blockUsers_after_status]; exact h1
  have c2 : tb ∉ (getUserD s1 sa).friends := by
    rw [hs1, friends_after_status]; exact h2
  have c3 : sa ∉ (getUserD s1 tb).incoming := by
    rw [hs1, incoming_after_status]; exact h3
  have hub : ∃ s2, unblock_user t sa tb (some tb) false s1 =
      (s2, .ok (if tb ∈ (getUserD s1 sa).blockUsers then .unblockedOk else .notBlocked)) := by
    rw [unblock_user]
    simp only [resolveArg]
    rw [if_neg hne]
    by_cases h : tb ∈ (getUserD s1 sa).blockUsers
    · simp [h]
    · simp [h]
  obtain ⟨s2, hs2⟩ := hub
  rw [add_friend]
  simp only [hres]
  rw [if_neg hne, if_neg c1, if_neg c2, if_neg c3, hs2]

theorem add_friend_alreadyRequested_path (t sa tb : Nat) (s : SNState) (B : Phystech)
    (hB : findUser s tb = some B) (hne : sa ≠ tb)
    (h1 : sa ∉ (getUserD s tb).blockUsers)
    (h2 : tb ∉ (getUserD s sa).friends)
    (h3 : sa ∈ (getUserD s tb).incoming) :
    add_friend t sa tb none s =
      (updateOnlineStatus t sa ("Add friend") s, .ok .alreadyRequested) := by
  have hBuid : B.uid = tb := findUser_eq_some_uid hB
  set s1 := updateOnlineStatus t sa ("Add friend") s with hs1
  have hB' : findUser s1 tb = some B := by
    rw [hs1, findUser_after_status_map, hB]
    simp [hBuid, Ne.symm hne]
  have hres : resolveArg s1 tb none = .ok tb := by
    simp [resolveArg, hB', hBuid]
  have c1 : sa ∉ (getUserD s1 tb).blockUsers := by
    rw [hs1, blockUsers_after_status]; exact h1
  have c2 : tb ∉ (getUserD s1 sa).friends := by
    rw [hs1, friends_after_status]; exact h2
  have c3 : sa ∈ (getUserD s1 tb).incoming := by
    rw [hs1, incoming_after_status]; exact h3
  rw [add_friend]
  simp only [hres]
  rw [if_neg hne, if_neg c1, if_neg c2, if_pos c3]

theorem getUserD_of_isSome {s : SNState} {v : Nat} (h : (findUser s v).isSome) :
    findUser s v = some (getUserD s v) := by
  cases hf : findUser s v with
  | none => rw [hf] at h; cases h
  | some u => rw [getUserD, hf]; rfl

theorem history_after_status_self (t uid : Nat) (act : String) (s : SNState) :
    (updateOnlineStatus t uid act s).history uid = s.history uid ++ [(t, act)] :=
  history_updateOnlineStatus_self t uid act s

theorem add_friend_success_effect (t sa tb : Nat) (s : SNState) (A B : Phystech)
    (hA : findUser s sa = some A) (hB : findUser s tb = some B) (hne : sa ≠ tb)
    (h1 : sa ∉ (getUserD s tb).blockUsers)
    (h2 : tb ∉ (getUserD s sa).friends)
    (h3 : sa ∉ (getUserD s tb).incoming) :
    (add_friend t sa tb none s).2 = .ok .requestSent ∧
    (∀ v, (getUserD ((add_friend t sa tb none s).1) v).friends = (getUserD s v).friends) ∧
    (∀ v, v ≠ sa → (getUserD ((add_friend t sa tb none s).1) v).blockUsers =
      (getUserD s v).blockUsers) ∧
    ((getUserD ((add_friend t sa tb none s).1) sa).blockUsers =
      ((getUserD s sa).blockUsers).erase tb) ∧
    (∀ v, v ≠ tb → (getUserD ((add_friend t sa tb none s).1) v).incoming =
      (getUserD s v).incoming) ∧
    ((getUserD ((add_friend t sa tb none s).1) tb).incoming =
      insert sa ((getUserD s tb).incoming)) ∧
    (∀ v, v ≠ sa → (getUserD ((add_friend t sa tb none s).1) v).outcoming =
      (getUserD s v).outcoming) ∧
    ((getUserD ((add_friend t sa tb none s).1) sa).outcoming =
      insert tb ((getUserD s sa).outcoming)) ∧
    (∀ v, (findUser ((add_friend t sa tb none s).1) v).isSome = (findUser s v).isSome) ∧
    (∀ v, v ≠ sa → (add_friend t sa tb none s).1.history v = s.history v) ∧
    ((add_friend t sa tb none s).1.history sa = s.history sa ++ [(t, "Add friend")]) := by
  rw [add_friend_success_path t sa tb s B hB hne h1 h2 h3]
  dsimp only
  set s1 := updateOnlineStatus t sa ("Add friend") s with hs1
  obtain ⟨hubr, hubF, hubI, hubO, hubBne, hubBsa, hubH, hubS⟩ :=
    unblock_internal_effect t sa tb s1 hne
  set sU := (unblock_user t sa tb (some tb) false s1).1 with hsU
  set gOut : Phystech → Phystech := fun u => { u with outcoming := insert tb u.outcoming }
    with hgOut
  set gIn : Phystech → Phystech := fun u => { u with incoming := insert sa u.incoming }
    with hgIn
  have hgOutUid : ∀ u, (gOut u).uid = u.uid := fun _ => rfl
  have hgInUid : ∀ u, (gIn u).uid = u.uid := fun _ => rfl
  have hsomeU : ∀ v, (findUser sU v).isSome = (findUser s v).isSome := by
    intro v
    rw [hubS v, hs1, isSome_findUser_after_status]
  have hsome2 : ∀ v, (findUser (updateUser sa gOut sU) v).isSome = (findUser s v).isSome := by
    intro v
    rw [isSome_findUser_updateUser gOut hgOutUid, hsomeU]
  have hsomeTb2 : (findUser (updateUser sa gOut sU) tb).isSome := by
    rw [hsome2, hB]; rfl
  have hsomeSaU : (findUser sU sa).isSome := by
    rw [hsomeU, hA]; rfl
  refine ⟨rfl, ?_, ?_, ?_, ?_, ?_, ?_, ?_, ?_, ?_, ?_⟩
  · intro v
    rw [proj_getUserD_updateUser Phystech.friends gIn hgInUid (fun _ => rfl) tb v,
      proj_getUserD_updateUser Phystech.friends gOut hgOutUid (fun _ => rfl) sa v,
      hubF v, hs1, friends_after_status]
  · intro v hv
    rw [proj_getUserD_updateUser Phystech.blockUsers gIn hgInUid (fun _ => rfl) tb v,
      proj_getUserD_updateUser Phystech.blockUsers gOut hgOutUid (fun _ => rfl) sa v,
      hubBne v hv, hs1, blockUsers_after_status]
  · rw [proj_getUserD_updateUser Phystech.blockUsers gIn hgInUid (fun _ => rfl) tb sa,
      proj_getUserD_updateUser Phystech.blockUsers gOut hgOutUid (fun _ => rfl) sa sa,
      hubBsa, hs1, blockUsers_after_status]
  · intro v hv
    rw [getUserD_updateUser_ne gIn hgInUid hv,
      proj_getUserD_updateUser Phystech.incoming gOut hgOutUid (fun _ => rfl) sa v,
      hubI v, hs1, incoming_after_status]
  · rw [getUserD_updateUser_self gIn hgInUid (getUserD_of_isSome hsomeTb2)]
    show insert sa ((getUserD (updateUser sa gOut sU) tb).incoming) = _
    rw [proj_getUserD_updateUser Phystech.incoming gOut hgOutUid (fun _ => rfl) sa tb,
      hubI tb, hs1, incoming_after_status]
  · intro v hv
    rw [proj_getUserD_updateUser Phystech.outcoming gIn hgInUid (fun _ => rfl) tb v,
      getUserD_updateUser_ne gOut hgOutUid hv, hubO v, hs1, outcoming_after_status]
  · rw [proj_getUserD_updateUser Phystech.outcoming gIn hgInUid (fun _ => rfl) tb sa,
      getUserD_updateUser_self gOut hgOutUid (getUserD_of_isSome hsomeSaU)]
    show insert tb ((getUserD sU sa).outcoming) = _
    rw [hubO sa, hs1, outcoming_after_status]
  · intro v
    rw [isSome_findUser_updateUser gIn hgInUid, hsome2 v]
  · intro v hv
    show sU.history v = s.history v
    rw [hubH, hs1, history_updateOnlineStatus_ne t ("Add friend") s hv]
  · show sU.history sa = s.history sa ++ [(t, ("Add friend"))]
    rw [hubH, hs1, history_after_status_self]

theorem accept_true_success_path (t sa tb : Nat) (s : SNState) (B : Phystech)
    (hB : findUser s tb = some B) (hne : sa ≠ tb)
    (h1 : tb ∈ (getUserD s sa).incoming)
    (h2 : sa ∈ (getUserD s tb).outcoming) :
    accept_friend_request t sa tb true none s =
      (updateUser tb (fun u => { u with outcoming := u.outcoming.erase sa })
        (updateUser sa (fun u => { u with incoming := u.incoming.erase tb })
          (updateUser tb (fun u => { u with friends := insert sa u.friends })
            (updateUser sa (fun u => { u with friends := insert tb u.friends })
              (updateOnlineStatus t sa ("Accept friend") s)))),
       .ok .accepted) := by
  have hBuid : B.uid = tb := findUser_eq_some_uid hB
  set s1 := updateOnlineStatus t sa ("Accept friend") s with hs1
  have hB' : findUser s1 tb = some B := by
    rw [hs1, findUser_after_status_map, hB]
    simp [hBuid, Ne.symm hne]
  have hres : resolveArg s1 tb none = .ok tb := by
    simp [resolveArg, hB', hBuid]
  have c1 : tb ∈ (getUserD s1 sa).incoming := by
    rw [hs1, incoming_after_status]; exact h1
  set gFa : Phystech → Phystech := fun u => { u with friends := insert tb u.friends } with hgFa
  set gFb : Phystech → Phystech := fun u => { u with friends := insert sa u.friends } with hgFb
  set gI : Phystech → Phystech := fun u => { u with incoming := u.incoming.erase tb } with hgI
  have c2 : sa ∈ (getUserD (updateUser sa gI (updateUser tb gFb (updateUser sa gFa s1))) tb).outcoming := by
    rw [proj_getUserD_updateUser Phystech.outcoming gI (fun _ => rfl) (fun _ => rfl) sa tb,
      proj_getUserD_updateUser Phystech.outcoming gFb (fun _ => rfl) (fun _ => rfl) tb tb,
      proj_getUserD_updateUser Phystech.outcoming gFa (fun _ => rfl) (fun _ => rfl) sa tb,
      hs1, outcoming_after_status]
    exact h2
  rw [accept_friend_request]
  simp only [hres]
  rw [if_neg (by simpa using c1)]
  simp only [if_pos True.intro, if_true]
  rw [if_pos c2]

theorem accept_true_success_effect (t sa tb : Nat) (s : SNState) (A B : Phystech)
    (hA : findUser s sa = some A) (hB : findUser s tb = some B) (hne : sa ≠ tb)
    (h1 : tb ∈ (getUserD s sa).incoming)
    (h2 : sa ∈ (getUserD s tb).outcoming) :
    (accept_friend_request t sa tb true none s).2 = .ok .accepted ∧
    ((getUserD ((accept_friend_request t sa tb true none s).1) sa).friends =
      insert tb ((getUserD s sa).friends)) ∧
    ((getUserD ((accept_friend_request t sa tb true none s).1) tb).friends =
      insert sa ((getUserD s tb).friends)) ∧
    (∀ v, v ≠ sa → v ≠ tb →
      (getUserD ((accept_friend_request t sa tb true none s).1) v).friends =
        (getUserD s v).friends) ∧
    ((getUserD ((accept_friend_request t sa tb true none s).1) sa).incoming =
      ((getUserD s sa).incoming).erase tb) ∧
    (∀ v, v ≠ sa → (getUserD ((accept_friend_request t sa tb true none s).1) v).incoming =
      (getUserD s v).incoming) ∧
    ((getUserD ((accept_friend_request t sa tb true none s).1) tb).outcoming =
      ((getUserD s tb).outcoming).erase sa) ∧
    (∀ v, v ≠ tb → (getUserD ((accept_friend_request t sa tb true none s).1) v).outcoming =
      (getUserD s v).outcoming) ∧
    (∀ v, (getUserD ((accept_friend_request t sa tb true none s).1) v).blockUsers =
      (getUserD s v).blockUsers) ∧
    (∀ v, (findUser ((accept_friend_request t sa tb true none s).1) v).isSome =
      (findUser s v).isSome) ∧
    (∀ v, v ≠ sa → (accept_friend_request t sa tb true none s).1.history v = s.history v) ∧
    ((accept_friend_request t sa tb true none s).1.history sa =
      s.history sa ++ [(t, "Accept friend")]) := by
  rw [accept_true_success_path t sa tb s B hB hne h1 h2]
  dsimp only
  set s1 := updateOnlineStatus t sa ("Accept friend") s with hs1
  set gFa : Phystech → Phystech := fun u => { u with friends := insert tb u.friends } with hgFa
  set gFb : Phystech → Phystech := fun u => { u with friends := insert sa u.friends } with hgFb
  set gI : Phystech → Phystech := fun u => { u with incoming := u.incoming.erase tb } with hgI
  set gO : Phystech → Phystech := fun u => { u with outcoming := u.outcoming.erase sa } with hgO
  have hsome1 : ∀ v, (findUser s1 v).isSome = (findUser s v).isSome := by
    intro v; rw [hs1, isSome_findUser_after_status]
  have hsome2 : ∀ v, (findUser (updateUser sa gFa s1) v).isSome = (findUser s v).isSome := by
    intro v; rw [isSome_findUser_updateUser gFa (fun _ => rfl), hsome1]
  have hsome3 : ∀ v, (findUser (updateUser tb gFb (updateUser sa gFa s1)) v).isSome =
      (findUser s v).isSome := by
    intro v; rw [isSome_findUser_updateUser gFb (fun _ => rfl), hsome2]
  have hsome4 : ∀ v, (findUser (updateUser sa gI (updateUser tb gFb (updateUser sa gFa s1))) v).isSome =
      (findUser s v).isSome := by
    intro v; rw [isSome_findUser_updateUser gI (fun _ => rfl), hsome3]
  have hSa1 : (findUser s1 sa).isSome := by rw [hsome1, hA]; rfl
  have hTb2 : (findUser (updateUser sa gFa s1) tb).isSome := by rw [hsome2, hB]; rfl
  have hSa3 : (findUser (updateUser tb gFb (updateUser sa gFa s1)) sa).isSome := by
    rw [hsome3, hA]; rfl
  have hTb4 : (findUser (updateUser sa gI (updateUser tb gFb (updateUser sa gFa s1))) tb).isSome := by
    rw [hsome4, hB]; rfl
  refine ⟨rfl, ?_, ?_, ?_, ?_, ?_, ?_, ?_, ?_, ?_, ?_, ?_⟩
  · rw [proj_getUserD_updateUser Phystech.friends gO (fun _ => rfl) (fun _ => rfl) tb sa,
      proj_getUserD_updateUser Phystech.friends gI (fun _ => rfl) (fun _ => rfl) sa sa,
      getUserD_updateUser_ne gFb (fun _ => rfl) hne,
      getUserD_updateUser_self gFa (fun _ => rfl) (getUserD_of_isSome hSa1)]
    show insert tb ((getUserD s1 sa).friends) = _
    rw [hs1, friends_after_status]
  · rw [proj_getUserD_updateUser Phystech.friends gO (fun _ => rfl) (fun _ => rfl) tb tb,
      proj_getUserD_updateUser Phystech.friends gI (fun _ => rfl) (fun _ => rfl) sa tb,
      getUserD_updateUser_self gFb (fun _ => rfl) (getUserD_of_isSome hTb2)]
    show insert sa ((getUserD (updateUser sa gFa s1) tb).friends) = _
    rw [getUserD_updateUser_ne gFa (fun _ => rfl) (Ne.symm hne), hs1, friends_after_status]
  · intro v hvs hvt
    rw [proj_getUserD_updateUser Phystech.friends gO (fun _ => rfl) (fun _ => rfl) tb v,
      proj_getUserD_updateUser Phystech.friends gI (fun _ => rfl) (fun _ => rfl) sa v,
      getUserD_updateUser_ne gFb (fun _ => rfl) hvt,
      getUserD_updateUser_ne gFa (fun _ => rfl) hvs, hs1, friends_after_status]
  · rw [proj_getUserD_updateUser Phystech.incoming gO (fun _ => rfl) (fun _ => rfl) tb sa,
      getUserD_updateUser_self gI (fun _ => rfl) (getUserD_of_isSome hSa3)]
    show ((getUserD (updateUser tb gFb (updateUser sa gFa s1)) sa).incoming).erase tb = _
    rw [proj_getUserD_updateUser Phystech.incoming gFb (fun _ => rfl) (fun _ => rfl) tb sa,
      proj_getUserD_updateUser Phystech.incoming gFa (fun _ => rfl) (fun _ => rfl) sa sa,
      hs1, incoming_after_status]
  · intro v hv
    rw [proj_getUserD_updateUser Phystech.incoming gO (fun _ => rfl) (fun _ => rfl) tb v,
      getUserD_updateUser_ne gI (fun _ => rfl) hv,
      proj_getUserD_updateUser Phystech.incoming gFb (fun _ => rfl) (fun _ => rfl) tb v,
      proj_getUserD_updateUser Phystech.incoming gFa (fun _ => rfl) (fun _ => rfl) sa v,
      hs1, incoming_after_status]
  · rw [getUserD_updateUser_self gO (fun _ => rfl) (getUserD_of_isSome hTb4)]
    show ((getUserD (updateUser sa gI (updateUser tb gFb (updateUser sa gFa s1))) tb).outcoming).erase sa = _
    rw [proj_getUserD_updateUser Phystech.outcoming gI (fun _ => rfl) (fun _ => rfl) sa tb,
      proj_getUserD_updateUser Phystech.outcoming gFb (fun _ => rfl) (fun _ => rfl) tb tb,
      proj_getUserD_updateUser Phystech.outcoming gFa (fun _ => rfl) (fun _ => rfl) sa tb,
      hs1, outcoming_after_status]
  · intro v hv
    rw [getUserD_updateUser_ne gO (fun _ => rfl) hv,
      proj_getUserD_updateUser Phystech.outcoming gI (fun _ => rfl) (fun _ => rfl) sa v,
      proj_getUserD_updateUser Phystech.outcoming gFb (fun _ => rfl) (fun _ => rfl) tb v,
      proj_getUserD_updateUser Phystech.outcoming gFa (fun _ => rfl) (fun _ => rfl) sa v,
      hs1, outcoming_after_status]
  · intro v
    rw [proj_getUserD_updateUser Phystech.blockUsers gO (fun _ => rfl) (fun _ => rfl) tb v,
      proj_getUserD_updateUser Phystech.blockUsers gI (fun _ => rfl) (fun _ => rfl) sa v,
      proj_getUserD_updateUser Phystech.blockUsers gFb (fun _ => rfl) (fun _ => rfl) tb v,
      proj_getUserD_updateUser Phystech.blockUsers gFa (fun _ => rfl) (fun _ => rfl) sa v,
      hs1, blockUsers_after_status]
  · intro v
    rw [isSome_findUser_updateUser gO (fun _ => rfl), hsome4]
  · intro v hv
    show s1.history v = s.history v
    rw [hs1, history_updateOnlineStatus_ne t ("Accept friend") s hv]
  · show s1.history sa = s.history sa ++ [(t, ("Accept friend"))]
    rw [hs1, history_after_status_self]

/-! Claim theorems. -/

/-- C5: for distinct registered accounts a and b with no existing
friendship, no block of a by b, and no pending request between them in
either direction, `a.sendFriendRequest(b)` followed by
`b.respondToFriendRequest(a, accept := true)` makes them mutual friends
and leaves no pending request between them in either direction. -/
theorem request_then_accept_yields_friendship (t1 t2 sa tb : Nat) (s : SNState)
    (A B : Phystech)
    (hA : findUser s sa = some A) (hB : findUser s tb = some B) (hne : sa ≠ tb)
    (hfr1 : tb ∉ (getUserD s sa).friends) (hfr2 : sa ∉ (getUserD s tb).friends)
    (hblk : sa ∉ (getUserD s tb).blockUsers)
    (hi1 : tb ∉ (getUserD s sa).incoming) (hi2 : sa ∉ (getUserD s tb).incoming)
    (ho1 : tb ∉ (getUserD s sa).outcoming) (ho2 : sa ∉ (getUserD s tb).outcoming) :
    (add_friend t1 sa tb none s).2 = .ok .requestSent ∧
    (accept_friend_request t2 tb sa true none ((add_friend t1 sa tb none s).1)).2 =
      .ok .accepted ∧
    sa ∈ (getUserD ((accept_friend_request t2 tb sa true none
      ((add_friend t1 sa tb none s).1)).1) tb).friends ∧
    tb ∈ (getUserD ((accept_friend_request t2 tb sa true none
      ((add_friend t1 sa tb none s).1)).1) sa).friends ∧
    tb ∉ (getUserD ((accept_friend_request t2 tb sa true none
      ((add_friend t1 sa tb none s).1)).1) sa).incoming ∧
    tb ∉ (getUserD ((accept_friend_request t2 tb sa true none
      ((add_friend t1 sa tb none s).1)).1) sa).outcoming ∧
    sa ∉ (getUserD ((accept_friend_request t2 tb sa true none
      ((add_friend t1 sa tb none s).1)).1) tb).incoming ∧
    sa ∉ (getUserD ((accept_friend_request t2 tb sa true none
      ((add_friend t1 sa tb none s).1)).1) tb).outcoming := by
  obtain ⟨e1r, e1F, e1Bne, e1Bsa, e1Ine, e1Itb, e1One, e1Osa, e1S, e1Hne, e1Hsa⟩ :=
    add_friend_success_effect t1 sa tb s A B hA hB hne hblk hfr1 hi2
  set r1 := (add_friend t1 sa tb none s).1 with hr1
  have hA1 : (findUser r1 sa).isSome := by rw [e1S, hA]; rfl
  have hB1 : (findUser r1 tb).isSome := by rw [e1S, hB]; rfl
  obtain ⟨e2r, e2Ftb, e2Fsa, e2Fne, e2Itb, e2Ine, e2Osa, e2One, e2Blk, e2S, e2Hne, e2Hsa⟩ :=
    accept_true_success_effect t2 tb sa r1 (getUserD r1 tb) (getUserD r1 sa)
      (getUserD_of_isSome hB1) (getUserD_of_isSome hA1) (Ne.symm hne)
      (by rw [e1Itb]; exact Finset.mem_insert_self sa _)
      (by rw [e1Osa]; exact Finset.mem_insert_self tb _)
  refine ⟨e1r, e2r, ?_, ?_, ?_, ?_, ?_, ?_⟩
  · rw [e2Ftb]; exact Finset.mem_insert_self sa _
  · rw [e2Fsa]; exact Finset.mem_insert_self tb _
  · rw [e2Ine sa hne, e1Ine sa hne]; exact hi1
  · rw [e2Osa]; exact Finset.not_mem_erase tb _
  · rw [e2Itb]; exact Finset.not_mem_erase sa _
  · rw [e2One tb (Ne.symm hne), e1One tb (Ne.symm hne)]; exact ho2

/-- Witness for C5 at a concrete directory: Alice (uid 0) requests Bob
(uid 1), Bob accepts; they end mutual friends with no pending
requests. -/
theorem request_then_accept_yields_friendship_witness :
    (add_friend 2 0 1 none stateAB).2 = .ok .requestSent ∧
    (accept_friend_request 3 1 0 true none ((add_friend 2 0 1 none stateAB).1)).2 =
      .ok .accepted ∧
    0 ∈ (getUserD ((accept_friend_request 3 1 0 true none
      ((add_friend 2 0 1 none stateAB).1)).1) 1).friends ∧
    1 ∈ (getUserD ((accept_friend_request 3 1 0 true none
      ((add_friend 2 0 1 none stateAB).1)).1) 0).friends ∧
    1 ∉ (getUserD ((accept_friend_request 3 1 0 true none
      ((add_friend 2 0 1 none stateAB).1)).1) 0).incoming ∧
    1 ∉ (getUserD ((accept_friend_request 3 1 0 true none
      ((add_friend 2 0 1 none stateAB).1)).1) 0).outcoming ∧
    0 ∉ (getUserD ((accept_friend_request 3 1 0 true none
      ((add_friend 2 0 1 none stateAB).1)).1) 1).incoming ∧
    0 ∉ (getUserD ((accept_friend_request 3 1 0 true none
      ((add_friend 2 0 1 none stateAB).1)).1) 1).outcoming :=
  request_then_accept_yields_friendship 2 3 0 1 stateAB
    (getUserD stateAB 0) (getUserD stateAB 1)
    (by decide) (by decide) (by decide) (by decide) (by decide) (by decide)
    (by decide) (by decide) (by decide) (by decide)

/-- C2 (counterexample): in the mutual-request situation the claim
describes — Bob (uid 1) has a pending outgoing request to Alice
(uid 0), so 1 is in Alice's incoming set and 0 is in Bob's outgoing
set — Alice's `sendFriendRequest(Bob)` is not a no-op: it reports that
a request was sent and inserts Alice into Bob's incoming-request set,
which was empty before the call. -/
theorem add_friend_mutual_request_counterexample :
    1 ∈ (getUserD stateReqBA 0).incoming ∧
    0 ∈ (getUserD stateReqBA 1).outcoming ∧
    0 ∉ (getUserD stateReqBA 1).incoming ∧
    (add_friend 3 0 1 none stateReqBA).2 = .ok .requestSent ∧
    0 ∈ (getUserD ((add_friend 3 0 1 none stateReqBA).1) 1).incoming ∧
    1 ∈ (getUserD ((add_friend 3 0 1 none stateReqBA).1) 0).outcoming := by
  decide

/-- C2 (amended): the informational no-op branch of `sendFriendRequest`
fires when the acting account already has a pending outgoing request to
the peer (the source checks `self.uid in peer.incoming`), not when the
peer has one to the acting account; in that case no friend, blocked,
incoming or outgoing set of any account changes. -/
theorem add_friend_noop_when_already_requested (t sa tb : Nat) (s : SNState) (B : Phystech)
    (hB : findUser s tb = some B) (hne : sa ≠ tb)
    (h1 : sa ∉ (getUserD s tb).blockUsers)
    (h2 : tb ∉ (getUserD s sa).friends)
    (h3 : sa ∈ (getUserD s tb).incoming) :
    (add_friend t sa tb none s).2 = .ok .alreadyRequested ∧
    (∀ v, (getUserD ((add_friend t sa tb none s).1) v).friends = (getUserD s v).friends) ∧
    (∀ v, (getUserD ((add_friend t sa tb none s).1) v).blockUsers =
      (getUserD s v).blockUsers) ∧
    (∀ v, (getUserD ((add_friend t sa tb none s).1) v).incoming =
      (getUserD s v).incoming) ∧
    (∀ v, (getUserD ((add_friend t sa tb none s).1) v).outcoming =
      (getUserD s v).outcoming) := by
  rw [add_friend_alreadyRequested_path t sa tb s B hB hne h1 h2 h3]
  exact ⟨rfl, fun v => friends_after_status t sa ("Add friend") s v,
    fun v => blockUsers_after_status t sa ("Add friend") s v,
    fun v => incoming_after_status t sa ("Add friend") s v,
    fun v => outcoming_after_status t sa ("Add friend") s v⟩

/-- Witness for the amended C2: Alice (uid 0) already has a pending
request to Bob (uid 1); repeating `sendFriendRequest` is a no-op. -/
theorem add_friend_noop_when_already_requested_witness :
    (add_friend 3 0 1 none stateReqAB).2 = .ok .alreadyRequested ∧
    (∀ v, (getUserD ((add_friend 3 0 1 none stateReqAB).1) v).friends =
      (getUserD stateReqAB v).friends) ∧
    (∀ v, (getUserD ((add_friend 3 0 1 none stateReqAB).1) v).blockUsers =
      (getUserD stateReqAB v).blockUsers) ∧
    (∀ v, (getUserD ((add_friend 3 0 1 none stateReqAB).1) v).incoming =
      (getUserD stateReqAB v).incoming) ∧
    (∀ v, (getUserD ((add_friend 3 0 1 none stateReqAB).1) v).outcoming =
      (getUserD stateReqAB v).outcoming) :=
  add_friend_noop_when_already_requested 3 0 1 stateReqAB (getUserD stateReqAB 1)
    (by decide) (by decide) (by decide) (by decide) (by decide)

theorem lastOnline_after_status_self (t uid : Nat) (act : String) (s : SNState)
    (u : Phystech) (hu : findUser s uid = some u) :
    (getUserD (updateOnlineStatus t uid act s) uid).lastOnline = t := by
  rw [getUserD, findUser_after_status_map, hu]
  simp [findUser_eq_some_uid hu]

theorem add_friend_self_path (t uid : Nat) (s : SNState) (u : Phystech)
    (hu : findUser s uid = some u) :
    add_friend t uid uid none s =
      (updateOnlineStatus t uid ("Add friend") s,
       .error (.assertionError ("You cant add yourself to friends!"))) := by
  set s1 := updateOnlineStatus t uid ("Add friend") s with hs1
  have hu' : findUser s1 uid = some { u with lastOnline := t } := by
    rw [hs1, findUser_after_status_map, hu]
    simp [findUser_eq_some_uid hu]
  have hres : resolveArg s1 uid none = .ok uid := by
    simp [resolveArg, hu', findUser_eq_some_uid hu]
  rw [add_friend]
  simp only [hres]
  simp

theorem block_user_self_path (t uid : Nat) (s : SNState) (u : Phystech)
    (hu : findUser s uid = some u) :
    block_user t uid uid none s =
      (updateOnlineStatus t uid ("Block user") s,
       .error (.assertionError ("You cant block yourself!"))) := by
  set s1 := updateOnlineStatus t uid ("Block user") s with hs1
  have hu' : findUser s1 uid = some { u with lastOnline := t } := by
    rw [hs1, findUser_after_status_map, hu]
    simp [findUser_eq_some_uid hu]
  have hres : resolveArg s1 uid none = .ok uid := by
    simp [resolveArg, hu', findUser_eq_some_uid hu]
  rw [block_user]
  simp only [hres]
  simp

theorem remove_friend_self_path (t uid : Nat) (s : SNState) (u : Phystech)
    (hu : findUser s uid = some u) :
    remove_friend t uid uid none true s =
      (updateOnlineStatus t uid ("Remove friend") s,
       .error (.assertionError ("You cant remove yourself from friends!"))) := by
  set s1 := updateOnlineStatus t uid ("Remove friend") s with hs1
  have hu' : findUser s1 uid = some { u with lastOnline := t } := by
    rw [hs1, findUser_after_status_map, hu]
    simp [findUser_eq_some_uid hu]
  have hres : resolveArg s1 uid none = .ok uid := by
    simp [resolveArg, hu', findUser_eq_some_uid hu]
  rw [remove_friend]
  simp only [hres]
  simp

theorem unblock_user_self_path (t uid : Nat) (s : SNState) (u : Phystech)
    (hu : findUser s uid = some u) :
    unblock_user t uid uid none true s =
      (updateOnlineStatus t uid ("Unblock user") s,
       .error (.assertionError ("You cant block yourself!"))) := by
  set s1 := updateOnlineStatus t uid ("Unblock user") s with hs1
  have hu' : findUser s1 uid = some { u with lastOnline := t } := by
    rw [hs1, findUser_after_status_map, hu]
    simp [findUser_eq_some_uid hu]
  have hres : resolveArg s1 uid none = .ok uid := by
    simp [resolveArg, hu', findUser_eq_some_uid hu]
  rw [unblock_user]
  simp only [if_pos True.intro, if_true, hres]

/-- C6: targeting the acting account itself in sendFriendRequest,
blockUser, unblockUser or removeFriend fails with the assertion error
(the embedding's InvalidOperationError), never a soft no-op result. -/
theorem self_target_ops_fail (t uid : Nat) (s : SNState)
    (h : (findUser s uid).isSome) :
    (add_friend t uid uid none s).2 =
      .error (.assertionError ("You cant add yourself to friends!")) ∧
    (block_user t uid uid none s).2 =
      .error (.assertionError ("You cant block yourself!")) ∧
    (unblock_user t uid uid none true s).2 =
      .error (.assertionError ("You cant block yourself!")) ∧
    (remove_friend t uid uid none true s).2 =
      .error (.assertionError ("You cant remove yourself from friends!")) := by
  obtain ⟨u, hu⟩ := Option.isSome_iff_exists.mp h
  exact ⟨by rw [add_friend_self_path t uid s u hu],
    by rw [block_user_self_path t uid s u hu],
    by rw [unblock_user_self_path t uid s u hu],
    by rw [remove_friend_self_path t uid s u hu]⟩

/-- Witness for C6 on the two-account example directory. -/
theorem self_target_ops_fail_witness :
    (add_friend 5 0 0 none stateAB).2 =
      .error (.assertionError ("You cant add yourself to friends!")) ∧
    (block_user 5 0 0 none stateAB).2 =
      .error (.assertionError ("You cant block yourself!")) ∧
    (unblock_user 5 0 0 none true stateAB).2 =
      .error (.assertionError ("You cant block yourself!")) ∧
    (remove_friend 5 0 0 none true stateAB).2 =
      .error (.assertionError ("You cant remove yourself from friends!")) :=
  self_target_ops_fail 5 0 stateAB (by decide)

/-- C9: when sendFriendRequest, blockUser or removeFriend is called
with the acting account itself as target, the self-check failure is
raised only after `_update_online_status` ran, so the acting account's
history has gained exactly the one record of the failed call and its
lastOnline field has been set to the call's timestamp. -/
theorem self_target_history_updated (t uid : Nat) (s : SNState)
    (h : (findUser s uid).isSome) :
    ((add_friend t uid uid none s).2 =
      .error (.assertionError ("You cant add yourself to friends!")) ∧
     (add_friend t uid uid none s).1.history uid = s.history uid ++ [(t, "Add friend")] ∧
     (getUserD ((add_friend t uid uid none s).1) uid).lastOnline = t) ∧
    ((block_user t uid uid none s).2 =
      .error (.assertionError ("You cant block yourself!")) ∧
     (block_user t uid uid none s).1.history uid = s.history uid ++ [(t, "Block user")] ∧
     (getUserD ((block_user t uid uid none s).1) uid).lastOnline = t) ∧
    ((remove_friend t uid uid none true s).2 =
      .error (.assertionError ("You cant remove yourself from friends!")) ∧
     (remove_friend t uid uid none true s).1.history uid =
       s.history uid ++ [(t, "Remove friend")] ∧
     (getUserD ((remove_friend t uid uid none true s).1) uid).lastOnline = t) := by
  obtain ⟨u, hu⟩ := Option.isSome_iff_exists.mp h
  refine ⟨⟨?_, ?_, ?_⟩, ⟨?_, ?_, ?_⟩, ⟨?_, ?_, ?_⟩⟩
  · rw [add_friend_self_path t uid s u hu]
  · rw [add_friend_self_path t uid s u hu]
    exact history_after_status_self t uid ("Add friend") s
  · rw [add_friend_self_path t uid s u hu]
    exact lastOnline_after_status_self t uid ("Add friend") s u hu
  · rw [block_user_self_path t uid s u hu]
  · rw [block_user_self_path t uid s u hu]
    exact history_after_status_self t uid ("Block user") s
  · rw [block_user_self_path t uid s u hu]
    exact lastOnline_after_status_self t uid ("Block user") s u hu
  · rw [remove_friend_self_path t uid s u hu]
  · rw [remove_friend_self_path t uid s u hu]
    exact history_after_status_self t uid ("Remove friend") s
  · rw [remove_friend_self_path t uid s u hu]
    exact lastOnline_after_status_self t uid ("Remove friend") s u hu

/-- Witness for C9: a self-targeted call on the example directory
appends its one history record before failing. -/
theorem self_target_history_updated_witness :
    ((add_friend 7 1 1 none stateAB).2 =
      .error (.assertionError ("You cant add yourself to friends!")) ∧
     (add_friend 7 1 1 none stateAB).1.history 1 =
       stateAB.history 1 ++ [(7, "Add friend")] ∧
     (getUserD ((add_friend 7 1 1 none stateAB).1) 1).lastOnline = 7) ∧
    ((block_user 7 1 1 none stateAB).2 =
      .error (.assertionError ("You cant block yourself!")) ∧
     (block_user 7 1 1 none stateAB).1.history 1 =
       stateAB.history 1 ++ [(7, "Block user")] ∧
     (getUserD ((block_user 7 1 1 none stateAB).1) 1).lastOnline = 7) ∧
    ((remove_friend 7 1 1 none true stateAB).2 =
      .error (.assertionError ("You cant remove yourself from friends!")) ∧
     (remove_friend 7 1 1 none true stateAB).1.history 1 =
       stateAB.history 1 ++ [(7, "Remove friend")] ∧
     (getUserD ((remove_friend 7 1 1 none true stateAB).1) 1).lastOnline = 7) :=
  self_target_history_updated 7 1 stateAB (by decide)

/-- C7: mutualFriends returns the intersection of the two friend-id
sets and is commutative: both orders of the call return the same set. -/
theorem get_mutual_friends_comm (t1 t2 sa tb : Nat) (s : SNState) (A B : Phystech)
    (hA : findUser s sa = some A) (hB : findUser s tb = some B) :
    (get_mutual_friends t1 sa tb none s).2 =
      .ok ((getUserD s sa).friends ∩ (getUserD s tb).friends) ∧
    (get_mutual_friends t2 tb sa none s).2 =
      .ok ((getUserD s sa).friends ∩ (getUserD s tb).friends) := by
  constructor
  · rw [get_mutual_friends]
    have hB' : findUser (updateOnlineStatus t1 sa ("Get mutual friends") s) tb =
        some (if B.uid = sa then { B with lastOnline := t1 } else B) := by
      rw [findUser_after_status_map, hB]
      rfl
    have huidB : B.uid = tb := findUser_eq_some_uid hB
    have hBuid : (if B.uid = sa then { B with lastOnline := t1 } else B).uid = tb := by
      by_cases h : B.uid = sa <;> simp [h] <;> omega
    have hres : resolveArg (updateOnlineStatus t1 sa ("Get mutual friends") s) tb none =
        .ok tb := by
      simp [resolveArg, hB', hBuid]
    simp only [hres]
    rw [friends_after_status, friends_after_status]
  · rw [get_mutual_friends]
    have hA' : findUser (updateOnlineStatus t2 tb ("Get mutual friends") s) sa =
        some (if A.uid = tb then { A with lastOnline := t2 } else A) := by
      rw [findUser_after_status_map, hA]
      rfl
    have huidA : A.uid = sa := findUser_eq_some_uid hA
    have hAuid : (if A.uid = tb then { A with lastOnline := t2 } else A).uid = sa := by
      by_cases h : A.uid = tb <;> simp [h] <;> omega
    have hres : resolveArg (updateOnlineStatus t2 tb ("Get mutual friends") s) sa none =
        .ok sa := by
      simp [resolveArg, hA', hAuid]
    simp only [hres]
    rw [friends_after_status, friends_after_status, Finset.inter_comm]

/-- Witness for C7 on the example directory where 0 and 1 are mutual
friends: both call orders return the same intersection. -/
theorem get_mutual_friends_comm_witness :
    (get_mutual_friends 5 0 1 none stateFriends).2 =
      .ok ((getUserD stateFriends 0).friends ∩ (getUserD stateFriends 1).friends) ∧
    (get_mutual_friends 6 1 0 none stateFriends).2 =
      .ok ((getUserD stateFriends 0).friends ∩ (getUserD stateFriends 1).friends) :=
  get_mutual_friends_comm 5 6 0 1 stateFriends
    (getUserD stateFriends 0) (getUserD stateFriends 1) (by decide) (by decide)

theorem find?_uid_nodup (uid : Nat) (l : List Phystech) (h : (l.map Phystech.uid).Nodup)
    (u : Phystech) (hu : u ∈ l) (huid : u.uid = uid) :
    l.find? (fun w => w.uid == uid) = some u := by
  induction l with
  | nil => cases hu
  | cons a l ih =>
    rw [List.map_cons, List.nodup_cons] at h
    rcases List.mem_cons.mp hu with rfl | hmem
    · simp [List.find?_cons, huid]
    · have hane : ¬ (a.uid = uid) := by
        intro he
        exact h.1 (by
          rw [he, ← huid]
          exact List.mem_map_of_mem Phystech.uid hmem)
      have : (a.uid == uid) = false := by simpa using hane
      simp only [List.find?_cons, this]
      exact ih h.2 hmem

/-- C8: resolving an account by id fails with the lookup error exactly
when no registered account carries that id; when some account does and
ids are unique, the resolved account is that account; operations that
resolve a peer by id (describe, sendFriendRequest) propagate the
failure. -/
theorem resolve_by_id_spec (s : SNState) (uid : Nat) :
    (getPhystechObject s uid = .error (.keyError uid) ↔ ∀ u ∈ s.users, u.uid ≠ uid) ∧
    (∀ u, getPhystechObject s uid = .ok u → u.uid = uid ∧ u ∈ s.users) ∧
    ((s.users.map Phystech.uid).Nodup → ∀ u ∈ s.users, u.uid = uid →
      getPhystechObject s uid = .ok u) ∧
    (∀ t sa year, (∀ u ∈ s.users, u.uid ≠ uid) →
      (describe_human t sa uid year s).2 = .error (.keyError uid)) ∧
    (∀ t sa, (∀ u ∈ s.users, u.uid ≠ uid) →
      (add_friend t sa uid none s).2 = .error (.keyError uid)) := by
  have hnone : (∀ u ∈ s.users, u.uid ≠ uid) → findUser s uid = none := by
    intro hall
    exact List.find?_eq_none.mpr (fun u hu => by simpa using hall u hu)
  have hnone' : ∀ t sa act, (∀ u ∈ s.users, u.uid ≠ uid) →
      findUser (updateOnlineStatus t sa act s) uid = none := by
    intro t sa act hall
    rw [findUser_after_status_map, hnone hall]
    rfl
  refine ⟨⟨?_, ?_⟩, ?_, ?_, ?_, ?_⟩
  · intro h u hu he
    cases hf : findUser s uid with
    | none =>
      have := List.find?_eq_none.mp hf u hu
      simp [he] at this
    | some w => rw [getPhystechObject, hf] at h; cases h
  · intro hall
    rw [getPhystechObject, hnone hall]
  · intro u h
    cases hf : findUser s uid with
    | none => rw [getPhystechObject, hf] at h; cases h
    | some w =>
      rw [getPhystechObject, hf] at h
      cases h
      exact ⟨findUser_eq_some_uid hf, findUser_mem hf⟩
  · intro hnd u hu huid
    rw [getPhystechObject, findUser, find?_uid_nodup uid s.users hnd u hu huid]
  · intro t sa year hall
    rw [describe_human]
    simp only [hnone' t sa _ hall]
  · intro t sa hall
    rw [add_friend]
    have : resolveArg (updateOnlineStatus t sa ("Add friend") s) uid none =
        .error (.keyError uid) := by
      rw [resolveArg, hnone' t sa _ hall]
    simp only [this]

/-- Witness for C8: uid 99 is not registered in the example directory,
so resolution and the operations that use it fail with the lookup
error, while uid 0 resolves to the account carrying id 0. -/
theorem resolve_by_id_spec_witness :
    getPhystechObject stateAB 99 = .error (.keyError 99) ∧
    (describe_human 4 0 99 2025 stateAB).2 = .error (.keyError 99) ∧
    (add_friend 4 0 99 none stateAB).2 = .error (.keyError 99) ∧
    getPhystechObject stateAB 0 = .ok (getUserD stateAB 0) :=
  ⟨(resolve_by_id_spec stateAB 99).1.mpr (by decide),
   (resolve_by_id_spec stateAB 99).2.2.2.1 4 0 2025 (by decide),
   (resolve_by_id_spec stateAB 99).2.2.2.2 4 0 (by decide),
   (resolve_by_id_spec stateAB 0).2.2.1 (by decide) (getUserD stateAB 0)
     (by decide) (by decide)⟩

/-- C10: constructing a new account registers exactly one new account
carrying the next uid, whose friends set is the supplied set verbatim
(the empty set when the argument is absent or empty, which coincides
with `fr.getD ∅`), with empty blocked and request sets; the previously
registered accounts are kept as the identical records, so no symmetric
insertion into any listed peer's friend set happens, and only the new
uid's history slot changes. -/
theorem mkPhystech_spec (t : Nat) (name login pw : String) (gy : Option Int)
    (bday st : Option String) (fr : Option (Finset Nat)) (s : SNState) :
    ∃ u : Phystech,
      (mkPhystech t name login pw gy bday st fr s).1.users = u :: s.users ∧
      (mkPhystech t name login pw gy bday st fr s).2 = s.nextUid ∧
      u.uid = s.nextUid ∧
      u.friends = initializeFriends fr ∧
      u.friends = fr.getD ∅ ∧
      u.blockUsers = ∅ ∧
      u.incoming = ∅ ∧
      u.outcoming = ∅ ∧
      (mkPhystech t name login pw gy bday st fr s).1.history =
        (fun v => if v = s.nextUid then [(t, "Create an account")] else s.history v) ∧
      (mkPhystech t name login pw gy bday st fr s).1.nextUid = s.nextUid + 1 := by
  refine ⟨_, rfl, rfl, rfl, rfl, ?_, rfl, rfl, rfl, rfl, rfl⟩
  cases fr with
  | none => rfl
  | some f =>
    by_cases hf : f = ∅
    · simp [initializeFriends, hf]
    · simp [initializeFriends, hf]

theorem remove_internal_effect (t sa tu targetUid : Nat) (flag : Bool) (s : SNState)
    (A B : Phystech)
    (hA : findUser s sa = some A) (hB : findUser s tu = some B) (hne : sa ≠ tu)
    (hsymm : tu ∈ (getUserD s sa).friends ↔ sa ∈ (getUserD s tu).friends) :
    ((remove_friend t sa targetUid (some tu) flag s).2 = .ok .notFriend ∨
     (remove_friend t sa targetUid (some tu) flag s).2 = .ok .removedOk) ∧
    ((getUserD ((remove_friend t sa targetUid (some tu) flag s).1) sa).friends =
      ((getUserD s sa).friends).erase tu) ∧
    ((getUserD ((remove_friend t sa targetUid (some tu) flag s).1) tu).friends =
      ((getUserD s tu).friends).erase sa) ∧
    (∀ v, v ≠ sa → v ≠ tu →
      (getUserD ((remove_friend t sa targetUid (some tu) flag s).1) v).friends =
        (getUserD s v).friends) ∧
    (∀ v, (getUserD ((remove_friend t sa targetUid (some tu) flag s).1) v).blockUsers =
      (getUserD s v).blockUsers) ∧
    (∀ v, (getUserD ((remove_friend t sa targetUid (some tu) flag s).1) v).incoming =
      (getUserD s v).incoming) ∧
    (∀ v, (getUserD ((remove_friend t sa targetUid (some tu) flag s).1) v).outcoming =
      (getUserD s v).outcoming) ∧
    (∀ v, (findUser ((remove_friend t sa targetUid (some tu) flag s).1) v).isSome =
      (findUser s v).isSome) ∧
    (∀ v, v ≠ sa → (remove_friend t sa targetUid (some tu) flag s).1.history v =
      s.history v) ∧
    ((remove_friend t sa targetUid (some tu) flag s).1.history sa =
      s.history sa ++ [(t, "Remove friend")]) := by
  rw [remove_friend]
  simp only [resolveArg]
  rw [if_neg hne]
  set s1 := updateOnlineStatus t sa ("Remove friend") s with hs1
  have hfr1 : ∀ v, (getUserD s1 v).friends = (getUserD s v).friends := by
    intro v; rw [hs1, friends_after_status]
  have hsome1 : ∀ v, (findUser s1 v).isSome = (findUser s v).isSome := by
    intro v; rw [hs1, isSome_findUser_after_status]
  have hSa1 : (findUser s1 sa).isSome := by rw [hsome1, hA]; rfl
  by_cases c : tu ∈ (getUserD s1 sa).friends
  · rw [if_neg (by simpa using c)]
    set gF : Phystech → Phystech := fun u => { u with friends := u.friends.erase tu } with hgF
    set s2 := updateUser sa gF s1 with hs2
    have c2 : sa ∈ (getUserD s2 tu).friends := by
      rw [hs2, getUserD_updateUser_ne gF (fun _ => rfl) (Ne.symm hne), hfr1]
      exact hsymm.mp (by rw [← hfr1 sa]; exact c)
    rw [if_pos c2]
    set gF2 : Phystech → Phystech := fun u => { u with friends := u.friends.erase sa } with hgF2
    have hsome2 : ∀ v, (findUser s2 v).isSome = (findUser s v).isSome := by
      intro v; rw [hs2, isSome_findUser_updateUser gF (fun _ => rfl), hsome1]
    have hTu2 : (findUser s2 tu).isSome := by rw [hsome2, hB]; rfl
    dsimp only
    refine ⟨Or.inr rfl, ?_, ?_, ?_, ?_, ?_, ?_, ?_, ?_, ?_⟩
    · rw [getUserD_updateUser_ne gF2 (fun _ => rfl) hne, hs2,
        getUserD_updateUser_self gF (fun _ => rfl) (getUserD_of_isSome hSa1)]
      show ((getUserD s1 sa).friends).erase tu = _
      rw [hfr1]
    · rw [getUserD_updateUser_self gF2 (fun _ => rfl) (getUserD_of_isSome hTu2)]
      show ((getUserD s2 tu).friends).erase sa = _
      rw [hs2, getUserD_updateUser_ne gF (fun _ => rfl) (Ne.symm hne), hfr1]
    · intro v hvs hvt
      rw [getUserD_updateUser_ne gF2 (fun _ => rfl) hvt, hs2,
        getUserD_updateUser_ne gF (fun _ => rfl) hvs, hfr1]
    · intro v
      rw [proj_getUserD_updateUser Phystech.blockUsers gF2 (fun _ => rfl) (fun _ => rfl) tu v,
        hs2, proj_getUserD_updateUser Phystech.blockUsers gF (fun _ => rfl) (fun _ => rfl) sa v,
        hs1, blockUsers_after_status]
    · intro v
      rw [proj_getUserD_updateUser Phystech.incoming gF2 (fun _ => rfl) (fun _ => rfl) tu v,
        hs2, proj_getUserD_updateUser Phystech.incoming gF (fun _ => rfl) (fun _ => rfl) sa v,
        hs1, incoming_after_status]
    · intro v
      rw [proj_getUserD_updateUser Phystech.outcoming gF2 (fun _ => rfl) (fun _ => rfl) tu v,
        hs2, proj_getUserD_updateUser Phystech.outcoming gF (fun _ => rfl) (fun _ => rfl) sa v,
        hs1, outcoming_after_status]
    · intro v
      rw [isSome_findUser_updateUser gF2 (fun _ => rfl), hsome2]
    · intro v hv
      show s1.history v = s.history v
      rw [hs1, history_updateOnlineStatus_ne t ("Remove friend") s hv]
    · show s1.history sa = s.history sa ++ [(t, ("Remove friend"))]
      rw [hs1, history_after_status_self]
  · rw [if_pos (by simpa using c)]
    have cno : tu ∉ (getUserD s sa).friends := by rw [← hfr1 sa]; exact c
    have cno2 : sa ∉ (getUserD s tu).friends := fun h => cno (hsymm.mpr h)
    refine ⟨Or.inl rfl, ?_, ?_, ?_, ?_, ?_, ?_, ?_, ?_, ?_⟩
    · rw [hfr1, Finset.erase_eq_of_not_mem cno]
    · rw [hfr1, Finset.erase_eq_of_not_mem cno2]
    · intro v hvs hvt; rw [hfr1]
    · intro v; rw [hs1, blockUsers_after_status]
    · intro v; rw [hs1, incoming_after_status]
    · intro v; rw [hs1, outcoming_after_status]
    · intro v; rw [hsome1]
    · intro v hv
      show s1.history v = s.history v
      rw [hs1, history_updateOnlineStatus_ne t ("Remove friend") s hv]
    · show s1.history sa = s.history sa ++ [(t, ("Remove friend"))]
      rw [hs1, history_after_status_self]

theorem accept_false_internal_effect (t sa tu targetUid : Nat) (s : SNState)
    (A B : Phystech)
    (hA : findUser s sa = some A) (hB : findUser s tu = some B) (hne : sa ≠ tu)
    (hpair : tu ∈ (getUserD s sa).incoming ↔ sa ∈ (getUserD s tu).outcoming) :
    ((accept_friend_request t sa targetUid false (some tu) s).2 = .ok .notInRequests ∨
     (accept_friend_request t sa targetUid false (some tu) s).2 = .ok .rejected) ∧
    ((getUserD ((accept_friend_request t sa targetUid false (some tu) s).1) sa).incoming =
      ((getUserD s sa).incoming).erase tu) ∧
    (∀ v, v ≠ sa →
      (getUserD ((accept_friend_request t sa targetUid false (some tu) s).1) v).incoming =
        (getUserD s v).incoming) ∧
    ((getUserD ((accept_friend_request t sa targetUid false (some tu) s).1) tu).outcoming =
      ((getUserD s tu).outcoming).erase sa) ∧
    (∀ v, v ≠ tu →
      (getUserD ((accept_friend_request t sa targetUid false (some tu) s).1) v).outcoming =
        (getUserD s v).outcoming) ∧
    (∀ v, (getUserD ((accept_friend_request t sa targetUid false (some tu) s).1) v).friends =
      (getUserD s v).friends) ∧
    (∀ v, (getUserD ((accept_friend_request t sa targetUid false (some tu) s).1) v).blockUsers =
      (getUserD s v).blockUsers) ∧
    (∀ v, (findUser ((accept_friend_request t sa targetUid false (some tu) s).1) v).isSome =
      (findUser s v).isSome) ∧
    (∀ v, v ≠ sa → (accept_friend_request t sa targetUid false (some tu) s).1.history v =
      s.history v) ∧
    ((accept_friend_request t sa targetUid false (some tu) s).1.history sa =
      s.history sa ++ [(t, "Accept friend")]) := by
  rw [accept_friend_request]
  simp only [resolveArg]
  set s1 := updateOnlineStatus t sa ("Accept friend") s with hs1
  have hin1 : ∀ v, (getUserD s1 v).incoming = (getUserD s v).incoming := by
    intro v; rw [hs1, incoming_after_status]
  have hout1 : ∀ v, (getUserD s1 v).outcoming = (getUserD s v).outcoming := by
    intro v; rw [hs1, outcoming_after_status]
  have hsome1 : ∀ v, (findUser s1 v).isSome = (findUser s v).isSome := by
    intro v; rw [hs1, isSome_findUser_after_status]
  have hSa1 : (findUser s1 sa).isSome := by rw [hsome1, hA]; rfl
  by_cases c : tu ∈ (getUserD s1 sa).incoming
  · rw [if_neg (by simpa using c)]
    simp only [Bool.false_eq_true, if_false]
    set gI : Phystech → Phystech := fun u => { u with incoming := u.incoming.erase tu }
      with hgI
    set s2 := updateUser sa gI s1 with hs2
    have c2 : sa ∈ (getUserD s2 tu).outcoming := by
      rw [hs2, getUserD_updateUser_ne gI (fun _ => rfl) (Ne.symm hne), hout1]
      exact hpair.mp (by rw [← hin1 sa]; exact c)
    rw [if_pos c2]
    set gO : Phystech → Phystech := fun u => { u with outcoming := u.outcoming.erase sa }
      with hgO
    have hsome2 : ∀ v, (findUser s2 v).isSome = (findUser s v).isSome := by
      intro v; rw [hs2, isSome_findUser_updateUser gI (fun _ => rfl), hsome1]
    have hTu2 : (findUser s2 tu).isSome := by rw [hsome2, hB]; rfl
    dsimp only
    refine ⟨Or.inr rfl, ?_, ?_, ?_, ?_, ?_, ?_, ?_, ?_, ?_⟩
    · rw [proj_getUserD_updateUser Phystech.incoming gO (fun _ => rfl) (fun _ => rfl) tu sa,
        hs2, getUserD_updateUser_self gI (fun _ => rfl) (getUserD_of_isSome hSa1)]
      show ((getUserD s1 sa).incoming).erase tu = _
      rw [hin1]
    · intro v hv
      rw [proj_getUserD_updateUser Phystech.incoming gO (fun _ => rfl) (fun _ => rfl) tu v,
        hs2, getUserD_updateUser_ne gI (fun _ => rfl) hv, hin1]
    · rw [getUserD_updateUser_self gO (fun _ => rfl) (getUserD_of_isSome hTu2)]
      show ((getUserD s2 tu).outcoming).erase sa = _
      rw [hs2, getUserD_updateUser_ne gI (fun _ => rfl) (Ne.symm hne), hout1]
    · intro v hv
      rw [getUserD_updateUser_ne gO (fun _ => rfl) hv, hs2,
        proj_getUserD_updateUser Phystech.outcoming gI (fun _ => rfl) (fun _ => rfl) sa v,
        hout1]
    · intro v
      rw [proj_getUserD_updateUser Phystech.friends gO (fun _ => rfl) (fun _ => rfl) tu v,
        hs2, proj_getUserD_updateUser Phystech.friends gI (fun _ => rfl) (fun _ => rfl) sa v,
        hs1, friends_after_status]
    · intro v
      rw [proj_getUserD_updateUser Phystech.blockUsers gO (fun _ => rfl) (fun _ => rfl) tu v,
        hs2, proj_getUserD_updateUser Phystech.blockUsers gI (fun _ => rfl) (fun _ => rfl) sa v,
        hs1, blockUsers_after_status]
    · intro v
      rw [isSome_findUser_updateUser gO (fun _ => rfl), hsome2]
    · intro v hv
      show s1.history v = s.history v
      rw [hs1, history_updateOnlineStatus_ne t ("Accept friend") s hv]
    · show s1.history sa = s.history sa ++ [(t, ("Accept friend"))]
      rw [hs1, history_after_status_self]
  · rw [if_pos (by simpa using c)]
    have cno : tu ∉ (getUserD s sa).incoming := by rw [← hin1 sa]; exact c
    have cno2 : sa ∉ (getUserD s tu).outcoming := fun h => cno (hpair.mpr h)
    refine ⟨Or.inl rfl, ?_, ?_, ?_, ?_, ?_, ?_, ?_, ?_, ?_⟩
    · rw [hin1, Finset.erase_eq_of_not_mem cno]
    · intro v hv; rw [hin1]
    · rw [hout1, Finset.erase_eq_of_not_mem cno2]
    · intro v hv; rw [hout1]
    · intro v; rw [hs1, friends_after_status]
    · intro v; rw [hs1, blockUsers_after_status]
    · intro v; rw [hsome1]
    · intro v hv
      show s1.history v = s.history v
      rw [hs1, history_updateOnlineStatus_ne t ("Accept friend") s hv]
    · show s1.history sa = s.history sa ++ [(t, ("Accept friend"))]
      rw [hs1, history_after_status_self]

theorem block_success_effect (t sa tb : Nat) (s : SNState) (A B : Phystech)
    (hA : findUser s sa = some A) (hB : findUser s tb = some B) (hne : sa ≠ tb)
    (hnb : tb ∉ (getUserD s sa).blockUsers)
    (hsymm : tb ∈ (getUserD s sa).friends ↔ sa ∈ (getUserD s tb).friends)
    (hpair : tb ∈ (getUserD s sa).incoming ↔ sa ∈ (getUserD s tb).outcoming) :
    (block_user t sa tb none s).2 = .ok .blockedOk ∧
    ((getUserD ((block_user t sa tb none s).1) sa).blockUsers =
      insert tb ((getUserD s sa).blockUsers)) ∧
    (∀ v, v ≠ sa → (getUserD ((block_user t sa tb none s).1) v).blockUsers =
      (getUserD s v).blockUsers) ∧
    ((getUserD ((block_user t sa tb none s).1) sa).friends =
      ((getUserD s sa).friends).erase tb) ∧
    ((getUserD ((block_user t sa tb none s).1) tb).friends =
      ((getUserD s tb).friends).erase sa) ∧
    (∀ v, v ≠ sa → v ≠ tb → (getUserD ((block_user t sa tb none s).1) v).friends =
      (getUserD s v).friends) ∧
    ((getUserD ((block_user t sa tb none s).1) sa).incoming =
      ((getUserD s sa).incoming).erase tb) ∧
    (∀ v, v ≠ sa → (getUserD ((block_user t sa tb none s).1) v).incoming =
      (getUserD s v).incoming) ∧
    ((getUserD ((block_user t sa tb none s).1) tb).outcoming =
      ((getUserD s tb).outcoming).erase sa) ∧
    (∀ v, v ≠ tb → (getUserD ((block_user t sa tb none s).1) v).outcoming =
      (getUserD s v).outcoming) ∧
    (∀ v, (findUser ((block_user t sa tb none s).1) v).isSome = (findUser s v).isSome) ∧
    ((block_user t sa tb none s).1.history sa = s.history sa ++
      [(t, "Block user"), (t, "Remove friend"), (t, "Accept friend")]) ∧
    (∀ v, v ≠ sa → (block_user t sa tb none s).1.history v = s.history v) := by
  have hBuid : B.uid = tb := findUser_eq_some_uid hB
  rw [block_user]
  set s1 := updateOnlineStatus t sa ("Block user") s with hs1
  have hB1 : findUser s1 tb = some B := by
    rw [hs1, findUser_after_status_map, hB]
    simp [hBuid, Ne.symm hne]
  have hres : resolveArg s1 tb none = .ok tb := by
    simp [resolveArg, hB1, hBuid]
  simp only [hres]
  rw [if_neg hne]
  have hnb1 : tb ∉ (getUserD s1 sa).blockUsers := by
    rw [hs1, blockUsers_after_status]; exact hnb
  rw [if_neg hnb1]
  set gB : Phystech → Phystech := fun u => { u with blockUsers := insert tb u.blockUsers }
    with hgB
  set s2 := updateUser sa gB s1 with hs2
  have hsome1 : ∀ v, (findUser s1 v).isSome = (findUser s v).isSome := by
    intro v; rw [hs1, isSome_findUser_after_status]
  have hsome2 : ∀ v, (findUser s2 v).isSome = (findUser s v).isSome := by
    intro v; rw [hs2, isSome_findUser_updateUser gB (fun _ => rfl), hsome1]
  have hSa1 : (findUser s1 sa).isSome := by rw [hsome1, hA]; rfl
  have hSa2 : (findUser s2 sa).isSome := by rw [hsome2, hA]; rfl
  have hTb2 : (findUser s2 tb).isSome := by rw [hsome2, hB]; rfl
  have hfr2 : ∀ v, (getUserD s2 v).friends = (getUserD s v).friends := by
    intro v
    rw [hs2, proj_getUserD_updateUser Phystech.friends gB (fun _ => rfl) (fun _ => rfl) sa v,
      hs1, friends_after_status]
  have hin2 : ∀ v, (getUserD s2 v).incoming = (getUserD s v).incoming := by
    intro v
    rw [hs2, proj_getUserD_updateUser Phystech.incoming gB (fun _ => rfl) (fun _ => rfl) sa v,
      hs1, incoming_after_status]
  have hout2 : ∀ v, (getUserD s2 v).outcoming = (getUserD s v).outcoming := by
    intro v
    rw [hs2, proj_getUserD_updateUser Phystech.outcoming gB (fun _ => rfl) (fun _ => rfl) sa v,
      hs1, outcoming_after_status]
  have hblk2ne : ∀ v, v ≠ sa → (getUserD s2 v).blockUsers = (getUserD s v).blockUsers := by
    intro v hv
    rw [hs2, getUserD_updateUser_ne gB (fun _ => rfl) hv, hs1, blockUsers_after_status]
  have hblk2sa : (getUserD s2 sa).blockUsers = insert tb ((getUserD s sa).blockUsers) := by
    rw [hs2, getUserD_updateUser_self gB (fun _ => rfl) (getUserD_of_isSome hSa1)]
    show insert tb ((getUserD s1 sa).blockUsers) = _
    rw [hs1, blockUsers_after_status]
  have hhist2sa : s2.history sa = s.history sa ++ [(t, ("Block user"))] := by
    show s1.history sa = _
    rw [hs1, history_after_status_self]
  have hhist2ne : ∀ v, v ≠ sa → s2.history v = s.history v := by
    intro v hv
    show s1.history v = _
    rw [hs1, history_updateOnlineStatus_ne t ("Block user") s hv]
  have hsymm2 : tb ∈ (getUserD s2 sa).friends ↔ sa ∈ (getUserD s2 tb).friends := by
    rw [hfr2, hfr2]; exact hsymm
  have heffR := remove_internal_effect t sa tb tb false s2
    (getUserD s2 sa) (getUserD s2 tb) (getUserD_of_isSome hSa2) (getUserD_of_isSome hTb2)
    hne hsymm2
  obtain ⟨p3, q3, hpq3⟩ : ∃ p q, remove_friend t sa tb (some tb) false s2 = (p, q) :=
    ⟨_, _, rfl⟩
  rw [hpq3] at heffR
  dsimp only at heffR
  obtain ⟨hr3, rFsa, rFtb, rFne, rBlk, rIn, rOut, rSome, rHne, rHsa⟩ := heffR
  rw [hpq3]
  have hSa3 : (findUser p3 sa).isSome := by rw [rSome, hsome2, hA]; rfl
  have hTb3 : (findUser p3 tb).isSome := by rw [rSome, hsome2, hB]; rfl
  have hpair3 : tb ∈ (getUserD p3 sa).incoming ↔ sa ∈ (getUserD p3 tb).outcoming := by
    rw [rIn, rOut, hin2, hout2]; exact hpair
  have heffA := accept_false_internal_effect t sa tb tb p3
    (getUserD p3 sa) (getUserD p3 tb) (getUserD_of_isSome hSa3) (getUserD_of_isSome hTb3)
    hne hpair3
  obtain ⟨p4, q4, hpq4⟩ : ∃ p q, accept_friend_request t sa tb false (some tb) p3 = (p, q) :=
    ⟨_, _, rfl⟩
  rw [hpq4] at heffA
  dsimp only at heffA
  obtain ⟨hr4, aInSa, aInNe, aOutTb, aOutNe, aFr, aBlk, aSome, aHne, aHsa⟩ := heffA
  rcases hr3 with h3 | h3 <;> rw [h3] <;> dsimp only <;> rw [hpq4] <;>
    rcases hr4 with h4 | h4 <;> rw [h4] <;> dsimp only <;>
    exact ⟨rfl,
      by rw [aBlk, rBlk, hblk2sa],
      fun v hv => by rw [aBlk, rBlk, hblk2ne v hv],
      by rw [aFr, rFsa, hfr2],
      by rw [aFr, rFtb, hfr2],
      fun v hvs hvt => by rw [aFr, rFne v hvs hvt, hfr2],
      by rw [aInSa, rIn, hin2],
      fun v hv => by rw [aInNe v hv, rIn, hin2],
      by rw [aOutTb, rOut, hout2],
      fun v hv => by rw [aOutNe v hv, rOut, hout2],
      fun v => by rw [aSome, rSome, hsome2],
      by rw [aHsa, rHsa, hhist2sa]; simp,
      fun v hv => by rw [aHne v hv, rHne v hv, hhist2ne v hv]⟩

/-- C1 (counterexample): Alice (uid 0) has a pending outgoing friend
request to Bob (uid 1); Alice then blocks Bob and the call succeeds,
yet the pending request from Alice to Bob survives in both request
sets, so a pending friend request does exist between the two accounts
after a successful block, contradicting the claim's
no-request-in-either-direction conclusion. -/
theorem block_user_pending_request_counterexample :
    1 ∉ (getUserD stateReqAB 0).blockUsers ∧
    (block_user 4 0 1 none stateReqAB).2 = .ok .blockedOk ∧
    1 ∈ (getUserD ((block_user 4 0 1 none stateReqAB).1) 0).outcoming ∧
    0 ∈ (getUserD ((block_user 4 0 1 none stateReqAB).1) 1).incoming := by
  decide

/-- C1 (amended): for distinct registered accounts a and b whose
pairwise friendship is symmetric and whose b-to-a request membership is
paired, a successful `a.blockUser(b)` removes the friendship in both
directions and clears a pending request from b to a, but it does not
touch a pending request from a to b: a's outgoing set and b's incoming
set are left unchanged. -/
theorem block_user_clears_friendship_and_peer_request (t sa tb : Nat) (s : SNState)
    (A B : Phystech)
    (hA : findUser s sa = some A) (hB : findUser s tb = some B) (hne : sa ≠ tb)
    (hnb : tb ∉ (getUserD s sa).blockUsers)
    (hsymm : tb ∈ (getUserD s sa).friends ↔ sa ∈ (getUserD s tb).friends)
    (hpair : tb ∈ (getUserD s sa).incoming ↔ sa ∈ (getUserD s tb).outcoming) :
    (block_user t sa tb none s).2 = .ok .blockedOk ∧
    tb ∈ (getUserD ((block_user t sa tb none s).1) sa).blockUsers ∧
    tb ∉ (getUserD ((block_user t sa tb none s).1) sa).friends ∧
    sa ∉ (getUserD ((block_user t sa tb none s).1) tb).friends ∧
    tb ∉ (getUserD ((block_user t sa tb none s).1) sa).incoming ∧
    sa ∉ (getUserD ((block_user t sa tb none s).1) tb).outcoming ∧
    (getUserD ((block_user t sa tb none s).1) sa).outcoming =
      (getUserD s sa).outcoming ∧
    (getUserD ((block_user t sa tb none s).1) tb).incoming =
      (getUserD s tb).incoming := by
  obtain ⟨hr, hBsa, hBne, hFsa, hFtb, hFne, hIsa, hIne, hOtb, hOne, hSome, hHsa, hHne⟩ :=
    block_success_effect t sa tb s A B hA hB hne hnb hsymm hpair
  refine ⟨hr, ?_, ?_, ?_, ?_, ?_, ?_, ?_⟩
  · rw [hBsa]; exact Finset.mem_insert_self tb _
  · rw [hFsa]; exact Finset.not_mem_erase tb _
  · rw [hFtb]; exact Finset.not_mem_erase sa _
  · rw [hIsa]; exact Finset.not_mem_erase tb _
  · rw [hOtb]; exact Finset.not_mem_erase sa _
  · exact hOne sa hne
  · exact hIne tb (Ne.symm hne)

/-- Witness for the amended C1: Alice (uid 0) blocks Bob (uid 1) while
her request to Bob is pending; friendship and any request from Bob are
absent afterwards, while her own pending request survives unchanged. -/
theorem block_user_clears_witness :
    (block_user 4 0 1 none stateReqAB).2 = .ok .blockedOk ∧
    1 ∈ (getUserD ((block_user 4 0 1 none stateReqAB).1) 0).blockUsers ∧
    1 ∉ (getUserD ((block_user 4 0 1 none stateReqAB).1) 0).friends ∧
    0 ∉ (getUserD ((block_user 4 0 1 none stateReqAB).1) 1).friends ∧
    1 ∉ (getUserD ((block_user 4 0 1 none stateReqAB).1) 0).incoming ∧
    0 ∉ (getUserD ((block_user 4 0 1 none stateReqAB).1) 1).outcoming ∧
    (getUserD ((block_user 4 0 1 none stateReqAB).1) 0).outcoming =
      (getUserD stateReqAB 0).outcoming ∧
    (getUserD ((block_user 4 0 1 none stateReqAB).1) 1).incoming =
      (getUserD stateReqAB 1).incoming :=
  block_user_clears_friendship_and_peer_request 4 0 1 stateReqAB
    (getUserD stateReqAB 0) (getUserD stateReqAB 1)
    (by decide) (by decide) (by decide) (by decide) (by decide) (by decide)

theorem history_unblock_false (t sa tb : Nat) (ua : Option Nat) (s : SNState) :
    (unblock_user t sa tb ua false s).1.history = s.history := by
  rw [unblock_user]
  simp only [Bool.false_eq_true, if_false]
  cases hres : resolveArg s tb ua with
  | error e => simp only [hres]
  | ok tu =>
    simp only [hres]
    split
    · rfl
    · split <;> rfl

theorem history_remove_friend_all (t sa tb : Nat) (ua : Option Nat) (flag : Bool)
    (s : SNState) :
    (remove_friend t sa tb ua flag s).1.history =
      (updateOnlineStatus t sa ("Remove friend") s).history := by
  rw [remove_friend]
  cases hres : resolveArg (updateOnlineStatus t sa ("Remove friend") s) tb ua with
  | error e => simp only [hres]
  | ok tu =>
    simp only [hres]
    split
    · rfl
    · split
      · rfl
      · split <;> rfl

theorem history_accept_all (t sa tb : Nat) (dec : Bool) (ua : Option Nat) (s : SNState) :
    (accept_friend_request t sa tb dec ua s).1.history =
      (updateOnlineStatus t sa ("Accept friend") s).history := by
  rw [accept_friend_request]
  cases hres : resolveArg (updateOnlineStatus t sa ("Accept friend") s) tb ua with
  | error e => simp only [hres]
  | ok tu =>
    simp only [hres]
    split
    · rfl
    · cases dec
      · simp only [Bool.false_eq_true, if_false]
        split <;> rfl
      · simp only [eq_self_iff_true, if_true]
        split <;> rfl

theorem history_add_friend_all (t sa tb : Nat) (ua : Option Nat) (s : SNState) :
    (add_friend t sa tb ua s).1.history =
      (updateOnlineStatus t sa ("Add friend") s).history := by
  rw [add_friend]
  cases hres : resolveArg (updateOnlineStatus t sa ("Add friend") s) tb ua with
  | error e => simp only [hres]
  | ok tu =>
    simp only [hres]
    split
    · rfl
    · split
      · rfl
      · split
        · rfl
        · split
          · rfl
          · obtain ⟨p, q, hpq⟩ : ∃ p q, unblock_user t sa tu (some tu) false
                (updateOnlineStatus t sa ("Add friend") s) = (p, q) := ⟨_, _, rfl⟩
            have hh : p.history = (updateOnlineStatus t sa ("Add friend") s).history := by
              have h0 := history_unblock_false t sa tu (some tu)
                (updateOnlineStatus t sa ("Add friend") s)
              rw [hpq] at h0
              exact h0
            rw [hpq]
            cases q with
            | error e => exact hh
            | ok b => exact hh

theorem history_mutual_all (t sa tb : Nat) (ua : Option Nat) (s : SNState) :
    (get_mutual_friends t sa tb ua s).1.history =
      (updateOnlineStatus t sa ("Get mutual friends") s).history := by
  rw [get_mutual_friends]
  cases hres : resolveArg (updateOnlineStatus t sa ("Get mutual friends") s) tb ua with
  | error e => simp only [hres]
  | ok tu => simp only [hres]

theorem history_describe_all (t sa tb : Nat) (year : Int) (s : SNState) :
    (describe_human t sa tb year s).1.history =
      (updateOnlineStatus t sa (("Describe ") ++ toString tb) s).history := by
  rw [describe_human]
  cases hf : findUser (updateOnlineStatus t sa (("Describe ") ++ toString tb) s) tb with
  | none => simp only [hf]
  | some u => simp only [hf]

theorem history_block_user_branches (t sa tb : Nat) (ua : Option Nat) (s : SNState) :
    ((block_user t sa tb ua s).2 = .ok .alreadyBlocked →
      (block_user t sa tb ua s).1.history sa = s.history sa ++ [(t, "Block user")]) ∧
    ((block_user t sa tb ua s).2 = .ok .blockedOk →
      (block_user t sa tb ua s).1.history sa =
        s.history sa ++ [(t, "Block user"), (t, "Remove friend"), (t, "Accept friend")]) := by
  rw [block_user]
  set s1 := updateOnlineStatus t sa ("Block user") s with hs1
  have hh1 : s1.history sa = s.history sa ++ [(t, ("Block user"))] := by
    rw [hs1, history_after_status_self]
  cases hres : resolveArg s1 tb ua with
  | error e =>
    simp only [hres]
    exact ⟨fun h => by simp at h, fun h => by simp at h⟩
  | ok tu =>
    simp only [hres]
    by_cases h1 : sa = tu
    · rw [if_pos h1]
      exact ⟨fun h => by simp at h, fun h => by simp at h⟩
    · rw [if_neg h1]
      by_cases h2 : tu ∈ (getUserD s1 sa).blockUsers
      · rw [if_pos h2]
        exact ⟨fun _ => hh1, fun h => by simp at h⟩
      · rw [if_neg h2]
        set sB := updateUser sa
          (fun u => { u with blockUsers := insert tu u.blockUsers }) s1 with hsB
        have hhB : sB.history sa = s.history sa ++ [(t, ("Block user"))] := hh1
        obtain ⟨p3, q3, hpq3⟩ : ∃ p q, remove_friend t sa tb (some tu) false sB = (p, q) :=
          ⟨_, _, rfl⟩
        have hh3 : p3.history sa = s.history sa ++
            [(t, ("Block user")), (t, ("Remove friend"))] := by
          have h0 := history_remove_friend_all t sa tb (some tu) false sB
          rw [hpq3] at h0
          have : p3.history sa = sB.history sa ++ [(t, ("Remove friend"))] := by
            rw [h0]
            exact history_after_status_self t sa ("Remove friend") sB
          rw [this, hhB]
          simp
        rw [hpq3]
        cases q3 with
        | error e =>
          exact ⟨fun h => by simp at h, fun h => by simp at h⟩
        | ok b =>
          obtain ⟨p4, q4, hpq4⟩ : ∃ p q, accept_friend_request t sa tu false (some tu) p3 =
              (p, q) := ⟨_, _, rfl⟩
          have hh4 : p4.history sa = s.history sa ++
              [(t, ("Block user")), (t, ("Remove friend")), (t, ("Accept friend"))] := by
            have h0 := history_accept_all t sa tu false (some tu) p3
            rw [hpq4] at h0
            have : p4.history sa = p3.history sa ++ [(t, ("Accept friend"))] := by
              rw [h0]
              exact history_after_status_self t sa ("Accept friend") p3
            rw [this, hh3]
            simp
          have hred : (match (p3, Except.ok (ε := PyExc) b) with
              | (s2, Except.error e) => (s2, Except.error e)
              | (s2, Except.ok _) =>
                match accept_friend_request t sa tu false (some tu) s2 with
                | (s3, Except.error e) => (s3, Except.error e)
                | (s3, Except.ok _) => (s3, Except.ok Branch.blockedOk)) =
              (match accept_friend_request t sa tu false (some tu) p3 with
                | (s3, Except.error e) => (s3, Except.error e)
                | (s3, Except.ok _) => (s3, Except.ok Branch.blockedOk)) := rfl
          rw [hred, hpq4]
          cases q4 with
          | error e =>
            exact ⟨fun h => by simp at h, fun h => by simp at h⟩
          | ok c =>
            exact ⟨fun h => by simp at h, fun _ => hh4⟩

theorem history_unblock_true_all (t sa tb : Nat) (ua : Option Nat) (s : SNState) :
    (unblock_user t sa tb ua true s).1.history =
      (updateOnlineStatus t sa ("Unblock user") s).history := by
  rw [unblock_user]
  simp only [eq_self_iff_true, if_true]
  cases hres : resolveArg (updateOnlineStatus t sa ("Unblock user") s) tb ua with
  | error e => simp only [hres]
  | ok tu =>
    simp only [hres]
    split
    · rfl
    · split <;> rfl

/-- C3 (counterexample): a successful blockUser call appends three
history records for the acting account — its own plus one from the
internal removeFriend and one from the internal respondToFriendRequest
— not exactly one: Alice's history grows from two records to five. -/
theorem block_user_three_history_records_counterexample :
    (block_user 4 0 1 none stateReqAB).2 = .ok .blockedOk ∧
    (stateReqAB.history 0).length = 2 ∧
    ((block_user 4 0 1 none stateReqAB).1.history 0).length = 5 ∧
    (block_user 4 0 1 none stateReqAB).1.history 0 =
      stateReqAB.history 0 ++
        [(4, "Block user"), (4, "Remove friend"), (4, "Accept friend")] := by
  decide

/-- C3 (amended): every state-mutating or state-reading call —
sendFriendRequest, respondToFriendRequest, removeFriend, unblockUser,
mutualFriends, describe and the default-flag getters — appends exactly
one history record for the acting account on every branch, no-ops and
failures included; blockUser is the exception: its no-op already-blocked
branch appends one record, but a successful block appends three (its
own plus those of the internal removeFriend and respondToFriendRequest
calls). -/
theorem one_history_record_per_call (t sa tb : Nat) (dec : Bool) (year : Int) (s : SNState) :
    (add_friend t sa tb none s).1.history sa = s.history sa ++ [(t, "Add friend")] ∧
    (accept_friend_request t sa tb dec none s).1.history sa =
      s.history sa ++ [(t, "Accept friend")] ∧
    (remove_friend t sa tb none true s).1.history sa =
      s.history sa ++ [(t, "Remove friend")] ∧
    (unblock_user t sa tb none true s).1.history sa =
      s.history sa ++ [(t, "Unblock user")] ∧
    (get_mutual_friends t sa tb none s).1.history sa =
      s.history sa ++ [(t, "Get mutual friends")] ∧
    (describe_human t sa tb year s).1.history sa =
      s.history sa ++ [(t, ("Describe ") ++ toString tb)] ∧
    (get_block_users_list t sa true s).1.history sa =
      s.history sa ++ [(t, "Get blocked users")] ∧
    (get_friends_list t sa true s).1.history sa = s.history sa ++ [(t, "Get friends")] ∧
    (get_incoming_friend_requests_list t sa true s).1.history sa =
      s.history sa ++ [(t, "Get incoming requests")] ∧
    (get_outcoming_friend_requests_list t sa true s).1.history sa =
      s.history sa ++ [(t, "Get outcoming friends")] ∧
    ((block_user t sa tb none s).2 = .ok .alreadyBlocked →
      (block_user t sa tb none s).1.history sa = s.history sa ++ [(t, "Block user")]) ∧
    ((block_user t sa tb none s).2 = .ok .blockedOk →
      (block_user t sa tb none s).1.history sa =
        s.history sa ++ [(t, "Block user"), (t, "Remove friend"), (t, "Accept friend")]) := by
  obtain ⟨hblk1, hblk3⟩ := history_block_user_branches t sa tb none s
  refine ⟨?_, ?_, ?_, ?_, ?_, ?_, ?_, ?_, ?_, ?_, hblk1, hblk3⟩
  · rw [congrFun (history_add_friend_all t sa tb none s) sa, history_after_status_self]
  · rw [congrFun (history_accept_all t sa tb dec none s) sa, history_after_status_self]
  · rw [congrFun (history_remove_friend_all t sa tb none true s) sa,
      history_after_status_self]
  · rw [congrFun (history_unblock_true_all t sa tb none s) sa, history_after_status_self]
  · rw [congrFun (history_mutual_all t sa tb none s) sa, history_after_status_self]
  · rw [congrFun (history_describe_all t sa tb year s) sa, history_after_status_self]
  · exact history_after_status_self t sa ("Get blocked users") s
  · exact history_after_status_self t sa ("Get friends") s
  · exact history_after_status_self t sa ("Get incoming requests") s
  · exact history_after_status_self t sa ("Get outcoming friends") s

/-- Witness for the amended C3 at a concrete directory, including a
successful block appending three records. -/
theorem one_history_record_per_call_witness :
    (add_friend 4 0 1 none stateReqAB).1.history 0 =
      stateReqAB.history 0 ++ [(4, "Add friend")] ∧
    (block_user 4 0 1 none stateReqAB).1.history 0 =
      stateReqAB.history 0 ++
        [(4, "Block user"), (4, "Remove friend"), (4, "Accept friend")] :=
  ⟨(one_history_record_per_call 4 0 1 true 2025 stateReqAB).1,
   (one_history_record_per_call 4 0 1 true 2025 stateReqAB).2.2.2.2.2.2.2.2.2.2.2
     (by decide)⟩

/-! Friendship-symmetry preservation (C4). -/

theorem friendsSymm_of_users_eq {s s' : SNState} (h : s'.users = s.users)
    (hs : FriendsSymm s) : FriendsSymm s' := by
  intro a ha b hb
  rw [h] at ha hb
  exact hs a ha b hb

theorem friendsSymm_updateUser_pres (uid : Nat) (f : Phystech → Phystech)
    (huid : ∀ u, (f u).uid = u.uid) (hfr : ∀ u, (f u).friends = u.friends)
    (s : SNState) (hs : FriendsSymm s) : FriendsSymm (updateUser uid f s) := by
  intro a ha b hb
  simp only [updateUser, List.mem_map] at ha hb
  obtain ⟨a0, ha0, rfl⟩ := ha
  obtain ⟨b0, hb0, rfl⟩ := hb
  have ga : ∀ u : Phystech, (if u.uid = uid then f u else u).uid = u.uid := by
    intro u; by_cases h : u.uid = uid <;> simp [h, huid]
  have gf : ∀ u : Phystech, (if u.uid = uid then f u else u).friends = u.friends := by
    intro u; by_cases h : u.uid = uid <;> simp [h, hfr]
  rw [ga a0, gf b0, ga b0, gf a0]
  exact hs a0 ha0 b0 hb0

theorem friendsSymm_status (t uid : Nat) (act : String) (s : SNState)
    (hs : FriendsSymm s) : FriendsSymm (updateOnlineStatus t uid act s) := by
  refine friendsSymm_of_users_eq ?_ (friendsSymm_updateUser_pres uid
    (fun u => { u with lastOnline := t }) (fun _ => rfl) (fun _ => rfl) s hs)
  rfl

theorem friendsSymm_insertPair (x y : Nat) (s : SNState) (hs : FriendsSymm s) :
    FriendsSymm (updateUser y (fun u => { u with friends := insert x u.friends })
      (updateUser x (fun u => { u with friends := insert y u.friends }) s)) := by
  intro a ha b hb
  simp only [updateUser, List.mem_map] at ha hb
  obtain ⟨a1, ⟨a0, ha0, rfl⟩, rfl⟩ := ha
  obtain ⟨b1, ⟨b0, hb0, rfl⟩, rfl⟩ := hb
  have key := hs a0 ha0 b0 hb0
  by_cases hxy : x = y
  · subst hxy
    by_cases hax : a0.uid = x <;> by_cases hbx : b0.uid = x <;>
      (try simp only [hax, hbx] at key) <;>
      simp [hax, hbx, Finset.mem_insert] <;> tauto
  · by_cases hax : a0.uid = x <;> by_cases hay : a0.uid = y <;>
      by_cases hbx : b0.uid = x <;> by_cases hby : b0.uid = y <;>
      first
        | omega
        | ((try simp only [hax, hay, hbx, hby] at key) <;>
           simp [hxy, Ne.symm hxy, hax, hay, hbx, hby, Finset.mem_insert] <;> tauto)

theorem friendsSymm_erasePair (x y : Nat) (s : SNState) (hs : FriendsSymm s) :
    FriendsSymm (updateUser y (fun u => { u with friends := u.friends.erase x })
      (updateUser x (fun u => { u with friends := u.friends.erase y }) s)) := by
  intro a ha b hb
  simp only [updateUser, List.mem_map] at ha hb
  obtain ⟨a1, ⟨a0, ha0, rfl⟩, rfl⟩ := ha
  obtain ⟨b1, ⟨b0, hb0, rfl⟩, rfl⟩ := hb
  have key := hs a0 ha0 b0 hb0
  by_cases hxy : x = y
  · subst hxy
    by_cases hax : a0.uid = x <;> by_cases hbx : b0.uid = x <;>
      (try simp only [hax, hbx] at key) <;>
      simp [hax, hbx, Finset.mem_erase] <;> tauto
  · by_cases hax : a0.uid = x <;> by_cases hay : a0.uid = y <;>
      by_cases hbx : b0.uid = x <;> by_cases hby : b0.uid = y <;>
      first
        | omega
        | ((try simp only [hax, hay, hbx, hby] at key) <;>
           simp [hxy, Ne.symm hxy, hax, hay, hbx, hby, Finset.mem_erase] <;> tauto)

theorem friendsSymm_eraseGhost (x tb : Nat) (s : SNState)
    (hghost : ∀ u ∈ s.users, u.uid ≠ tb)
    (hs : FriendsSymm s) :
    FriendsSymm (updateUser x (fun u => { u with friends := u.friends.erase tb }) s) := by
  intro a ha b hb
  simp only [updateUser, List.mem_map] at ha hb
  obtain ⟨a0, ha0, rfl⟩ := ha
  obtain ⟨b0, hb0, rfl⟩ := hb
  have hna := hghost a0 ha0
  have hnb := hghost b0 hb0
  have key := hs a0 ha0 b0 hb0
  by_cases hax : a0.uid = x <;> by_cases hbx : b0.uid = x <;>
    (try simp only [hax, hbx] at key hna hnb) <;>
    simp [hax, hbx, Finset.mem_erase, hna, hnb] <;> tauto

theorem friendsSymm_unblock_tail (sa tb : Nat) (ua : Option Nat) (S : SNState)
    (msg : String) (hsS : FriendsSymm S) :
    FriendsSymm ((match resolveArg S tb ua with
        | Except.error e => (S, Except.error e)
        | Except.ok tu =>
          if sa = tu then (S, Except.error (PyExc.assertionError msg))
          else if tu ∉ (getUserD S sa).blockUsers then (S, Except.ok Branch.notBlocked)
          else (updateUser sa (fun u => { u with blockUsers := u.blockUsers.erase tu }) S,
                Except.ok Branch.unblockedOk) : SNState × Except PyExc Branch).1) := by
  cases hres : resolveArg S tb ua with
  | error e => simp only [hres]; exact hsS
  | ok tu =>
    simp only [hres]
    split
    · exact hsS
    · split
      · exact hsS
      · exact friendsSymm_updateUser_pres sa
          (fun u => { u with blockUsers := u.blockUsers.erase tu })
          (fun _ => rfl) (fun _ => rfl) S hsS

theorem friendsSymm_unblock (t sa tb : Nat) (ua : Option Nat) (flag : Bool) (s : SNState)
    (hs : FriendsSymm s) : FriendsSymm ((unblock_user t sa tb ua flag s).1) := by
  rw [unblock_user]
  cases flag
  · simp only [Bool.false_eq_true, if_false]
    exact friendsSymm_unblock_tail sa tb ua s ("You cant block yourself!") hs
  · simp only [eq_self_iff_true, if_true]
    exact friendsSymm_unblock_tail sa tb ua (updateOnlineStatus t sa ("Unblock user") s)
      ("You cant block yourself!") (friendsSymm_status t sa ("Unblock user") s hs)

theorem friendsSymm_mutual (t sa tb : Nat) (ua : Option Nat) (s : SNState)
    (hs : FriendsSymm s) : FriendsSymm ((get_mutual_friends t sa tb ua s).1) := by
  rw [get_mutual_friends]
  have hs1 := friendsSymm_status t sa ("Get mutual friends") s hs
  cases hres : resolveArg (updateOnlineStatus t sa ("Get mutual friends") s) tb ua with
  | error e => simp only [hres]; exact hs1
  | ok tu => simp only [hres]; exact hs1

theorem friendsSymm_add_friend (t sa tb : Nat) (ua : Option Nat) (s : SNState)
    (hs : FriendsSymm s) : FriendsSymm ((add_friend t sa tb ua s).1) := by
  rw [add_friend]
  have hs1 := friendsSymm_status t sa ("Add friend") s hs
  cases hres : resolveArg (updateOnlineStatus t sa ("Add friend") s) tb ua with
  | error e => simp only [hres]; exact hs1
  | ok tu =>
    simp only [hres]
    split
    · exact hs1
    · split
      · exact hs1
      · split
        · exact hs1
        · split
          · exact hs1
          · obtain ⟨p, q, hpq⟩ : ∃ p q, unblock_user t sa tu (some tu) false
                (updateOnlineStatus t sa ("Add friend") s) = (p, q) := ⟨_, _, rfl⟩
            have hsp : FriendsSymm p := by
              have h0 := friendsSymm_unblock t sa tu (some tu) false
                (updateOnlineStatus t sa ("Add friend") s) hs1
              rw [hpq] at h0
              exact h0
            rw [hpq]
            cases q with
            | error e => exact hsp
            | ok b =>
              exact friendsSymm_updateUser_pres tu
                (fun u => { u with incoming := insert sa u.incoming })
                (fun _ => rfl) (fun _ => rfl) _
                (friendsSymm_updateUser_pres sa
                  (fun u => { u with outcoming := insert tu u.outcoming })
                  (fun _ => rfl) (fun _ => rfl) p hsp)

theorem friendsSymm_accept (t sa tb : Nat) (dec : Bool) (ua : Option Nat) (s : SNState)
    (hs : FriendsSymm s) : FriendsSymm ((accept_friend_request t sa tb dec ua s).1) := by
  rw [accept_friend_request]
  have hs1 := friendsSymm_status t sa ("Accept friend") s hs
  cases hres : resolveArg (updateOnlineStatus t sa ("Accept friend") s) tb ua with
  | error e => simp only [hres]; exact hs1
  | ok tu =>
    simp only [hres]
    split
    · exact hs1
    · cases dec
      · simp only [Bool.false_eq_true, if_false]
        split
        · exact friendsSymm_updateUser_pres tu
            (fun u => { u with outcoming := u.outcoming.erase sa })
            (fun _ => rfl) (fun _ => rfl) _
            (friendsSymm_updateUser_pres sa
              (fun u => { u with incoming := u.incoming.erase tu })
              (fun _ => rfl) (fun _ => rfl) _ hs1)
        · exact friendsSymm_updateUser_pres sa
            (fun u => { u with incoming := u.incoming.erase tu })
            (fun _ => rfl) (fun _ => rfl) _ hs1
      · simp only [eq_self_iff_true, if_true]
        have hsP := friendsSymm_insertPair sa tu
          (updateOnlineStatus t sa ("Accept friend") s) hs1
        split
        · exact friendsSymm_updateUser_pres tu
            (fun u => { u with outcoming := u.outcoming.erase sa })
            (fun _ => rfl) (fun _ => rfl) _
            (friendsSymm_updateUser_pres sa
              (fun u => { u with incoming := u.incoming.erase tu })
              (fun _ => rfl) (fun _ => rfl) _ hsP)
        · exact friendsSymm_updateUser_pres sa
            (fun u => { u with incoming := u.incoming.erase tu })
            (fun _ => rfl) (fun _ => rfl) _ hsP

theorem friendsSymm_remove (t sa tb : Nat) (ua : Option Nat) (flag : Bool) (s : SNState)
    (hs : FriendsSymm s) : FriendsSymm ((remove_friend t sa tb ua flag s).1) := by
  rw [remove_friend]
  have hs1 := friendsSymm_status t sa ("Remove friend") s hs
  cases hres : resolveArg (updateOnlineStatus t sa ("Remove friend") s) tb ua with
  | error e => simp only [hres]; exact hs1
  | ok tu =>
    simp only [hres]
    split
    · exact hs1
    · next hne =>
      split
      · exact hs1
      · next hfr =>
        have hc : tu ∈ (getUserD (updateOnlineStatus t sa ("Remove friend") s) sa).friends :=
          not_not.mp hfr
        split
        · exact friendsSymm_erasePair sa tu (updateOnlineStatus t sa ("Remove friend") s) hs1
        · next hko =>
          cases hf : findUser (updateOnlineStatus t sa ("Remove friend") s) tu with
          | none =>
            exact friendsSymm_eraseGhost sa tu _
              (fun u hu he => by
                have := List.find?_eq_none.mp hf u hu
                simp [he] at this) hs1
          | some B =>
            exfalso
            apply hko
            rw [getUserD_updateUser_ne (fun u => { u with friends := u.friends.erase tu })
              (fun _ => rfl) (fun h => hne h.symm)]
            have hAex : (findUser (updateOnlineStatus t sa ("Remove friend") s) sa).isSome := by
              cases hfa : findUser (updateOnlineStatus t sa ("Remove friend") s) sa with
              | none =>
                rw [getUserD, hfa] at hc
                simp [default] at hc
              | some A => rfl
            obtain ⟨A, hA⟩ := Option.isSome_iff_exists.mp hAex
            have hAuid : A.uid = sa := findUser_eq_some_uid hA
            have hBuid : B.uid = tu := findUser_eq_some_uid hf
            have key := hs1 A (findUser_mem hA) B (findUser_mem hf)
            rw [hAuid, hBuid] at key
            rw [getUserD, hf]
            show sa ∈ B.friends
            apply key.mpr
            rw [getUserD, hA] at hc
            exact hc

theorem friendsSymm_block (t sa tb : Nat) (ua : Option Nat) (s : SNState)
    (hs : FriendsSymm s) : FriendsSymm ((block_user t sa tb ua s).1) := by
  rw [block_user]
  have hs1 := friendsSymm_status t sa ("Block user") s hs
  cases hres : resolveArg (updateOnlineStatus t sa ("Block user") s) tb ua with
  | error e => simp only [hres]; exact hs1
  | ok tu =>
    simp only [hres]
    split
    · exact hs1
    · split
      · exact hs1
      · have hs2 := friendsSymm_updateUser_pres sa
          (fun u => { u with blockUsers := insert tu u.blockUsers })
          (fun _ => rfl) (fun _ => rfl) _ hs1
        obtain ⟨p3, q3, hpq3⟩ : ∃ p q, remove_friend t sa tb (some tu) false
            (updateUser sa (fun u => { u with blockUsers := insert tu u.blockUsers })
              (updateOnlineStatus t sa ("Block user") s)) = (p, q) := ⟨_, _, rfl⟩
        have hsp3 : FriendsSymm p3 := by
          have h0 := friendsSymm_remove t sa tb (some tu) false _ hs2
          rw [hpq3] at h0
          exact h0
        rw [hpq3]
        cases q3 with
        | error e => exact hsp3
        | ok b =>
          obtain ⟨p4, q4, hpq4⟩ : ∃ p q, accept_friend_request t sa tu false (some tu) p3 =
              (p, q) := ⟨_, _, rfl⟩
          have hsp4 : FriendsSymm p4 := by
            have h0 := friendsSymm_accept t sa tu false (some tu) p3 hsp3
            rw [hpq4] at h0
            exact h0
          have hred : (match (p3, Except.ok (ε := PyExc) b) with
              | (s2, Except.error e) => (s2, Except.error e)
              | (s2, Except.ok _) =>
                match accept_friend_request t sa tu false (some tu) s2 with
                | (s3, Except.error e) => (s3, Except.error e)
                | (s3, Except.ok _) => (s3, Except.ok Branch.blockedOk)) =
              (match accept_friend_request t sa tu false (some tu) p3 with
                | (s3, Except.error e) => (s3, Except.error e)
                | (s3, Except.ok _) => (s3, Except.ok Branch.blockedOk)) := rfl
          rw [hred, hpq4]
          cases q4 with
          | error e => exact hsp4
          | ok c => exact hsp4

/-- C4: friendship symmetry is an invariant of every relationship
operation of §4.2: if every pair of registered accounts is
symmetrically related by the friend sets, then after any single
sendFriendRequest, respondToFriendRequest, removeFriend, blockUser,
unblockUser or mutualFriends call, on any arguments and any branch,
every pair is still symmetrically related. -/
theorem friends_symmetry_invariant (t : Nat) (o : Op) (s : SNState)
    (hs : FriendsSymm s) : FriendsSymm (applyOp t o s) := by
  cases o with
  | sendFriendRequest a b => exact friendsSymm_add_friend t a b none s hs
  | respondToFriendRequest a b d => exact friendsSymm_accept t a b d none s hs
  | removeFriend a b => exact friendsSymm_remove t a b none true s hs
  | blockUser a b => exact friendsSymm_block t a b none s hs
  | unblockUser a b => exact friendsSymm_unblock t a b none true s hs
  | mutualFriends a b => exact friendsSymm_mutual t a b none s hs

/-- Witness for C4: the two-friend example directory is symmetric and
stays symmetric across a blockUser call that dissolves the
friendship. -/
theorem friends_symmetry_invariant_witness :
    FriendsSymm stateFriends ∧ FriendsSymm (applyOp 9 (.blockUser 0 1) stateFriends) :=
  ⟨by decide, friends_symmetry_invariant 9 (.blockUser 0 1) stateFriends (by decide)⟩
